import Mathlib

/-!
Verification development for the RenderDoc Vulkan capture/replay core.

Shallow embedding of:
  * `VulkanDebugManager::GPUBuffer::Create` / `Map` (ring allocator),
    src/renderdoc/driver/vulkan/vk_debug.cpp
  * `VulkanDebugManager::PatchFixedColShader` (SPIR-V constant patching)
  * the cache-key computation of `VulkanDebugManager::CacheMeshDisplayPipelines`
  * `AddOutputDumping` (SPIR-V output-dumping injection)
  * `VulkanDebugManager::RenderOverlay` (drawcall/wireframe and backface
    overlay variants, state save/restore and ephemeral object lifetime)
  * `SerialiseNext` and `DoSerialiseViaResourceId`,
    src/renderdoc/driver/vulkan/vk_serialise.cpp

Machine integers are modelled as `Nat` with explicit `% 2^32` / `% 2^64`
where C++ unsigned truncation is observable.
-/

namespace RenderDoc

/-- Modelled from the spec: the `AlignUp` helper used by the ring allocator
and `GPUBuffer::Create` is defined outside the provided sources; the spec
states "every returned offset must be alignment-aligned", i.e. it rounds its
first argument up to the next multiple of the (positive) alignment. -/
def alignUp (x align : Nat) : Nat :=
  if align = 0 then x else ((x + align - 1) / align) * align

/-- State of `VulkanDebugManager::GPUBuffer` relevant to `Create`/`Map`:
`sz`, `align`, `totalsize` and the ring write cursor `curoffset`
(vk_debug.cpp, member fields; all `VkDeviceSize`, i.e. 64-bit). -/
structure GPUBuffer where
  sz : Nat
  align : Nat
  totalsize : Nat
  curoffset : Nat
deriving Repr, DecidableEq

namespace GPUBuffer

/-- `GPUBuffer::Create` (vk_debug.cpp:140-194), the size bookkeeping only:
`align` comes from the device's `minUniformBufferOffsetAlignment`,
`totalsize = ringSize == 1 ? size : AlignUp(size, align)*ringSize`, and the
cursor starts at zero.  The Vulkan object creation it performs has no
bearing on the ring arithmetic. -/
def create (size ringSize align : Nat) : GPUBuffer :=
  { sz := size
    align := align
    totalsize := if ringSize = 1 then size else alignUp size align * ringSize
    curoffset := 0 }

/-- `GPUBuffer::Map` (vk_debug.cpp:224-244) with a non-null `bindoffset`:
`offset = curoffset`, `size = usedsize > 0 ? usedsize : sz`, wrap to zero
when `offset + size > totalsize`, advance the cursor to
`AlignUp(offset+size, align)`, and return `*bindoffset = (uint32_t)offset`
-- note the truncating cast of the 64-bit offset to `uint32_t`, modelled as
`% 2^32`.  Returns `(bindoffset, effective size, updated buffer)`. -/
def map (b : GPUBuffer) (usedsize : Nat) : Nat × Nat × GPUBuffer :=
  let offset := b.curoffset
  let size := if usedsize > 0 then usedsize else b.sz
  let offset := if offset + size > b.totalsize then 0 else offset
  (offset % 2 ^ 32, size, { b with curoffset := alignUp (offset + size) b.align })

/-- A sequence of `Map` reservations: returns the list of
`(bindoffset, effective size)` pairs handed back, threading the cursor. -/
def mapRun (b : GPUBuffer) (sizes : List Nat) : List (Nat × Nat) × GPUBuffer :=
  match sizes with
  | [] => ([], b)
  | s :: rest =>
    let (off, sz, b') := b.map s
    let (outs, bEnd) := mapRun b' rest
    ((off, sz) :: outs, bEnd)

end GPUBuffer

/-- Truncating `uint32_t` left shift: in C++ the expression
`(uint32_t expr) << bit` has type `uint32_t`, so high bits are discarded.
(For shift counts ≥ 32 the C++ is undefined; the mathematical truncation
used here yields 0, and no theorem below depends on that case.) -/
def u32shl (x n : Nat) : Nat := (x <<< n) % 2 ^ 32

/-- The cache key computed by `VulkanDebugManager::CacheMeshDisplayPipelines`
(vk_debug.cpp:2774-2827) from the structural signature.  `key` is
`uint64_t`, but every `key |= ...` operand except the first is a `uint32_t`
expression (the `<< bit` shifts are performed in 32-bit arithmetic before
being zero-extended), which is modelled by `u32shl`.  `primaryFmt` /
`secondaryFmtIn` stand for the `MakeVkFormat` results; when
`secondary.buf == ResourceId()` (`secondaryBufValid = false`) the secondary
format used is `VK_FORMAT_UNDEFINED` (= 0) and the secondary-stride field is
not ORed in. -/
def cacheMeshPipelinesKey (idxByteWidth topo primaryFmt secondaryFmtIn
    primaryStride secondaryStride : Nat) (secondaryBufValid : Bool) : Nat :=
  let key : Nat := 0
  let bit : Nat := 0
  let key := if idxByteWidth = 4 then key ||| (1 <<< bit) else key
  let bit := bit + 1
  let key := key ||| u32shl (topo &&& 0x3f) bit
  let bit := bit + 6
  let secondaryFmt := if secondaryBufValid then secondaryFmtIn else 0
  let key := key ||| u32shl (primaryFmt &&& 0xff) bit
  let bit := bit + 8
  let key := key ||| u32shl (secondaryFmt &&& 0xff) bit
  let bit := bit + 8
  let key := key ||| u32shl (primaryStride &&& 0xffff) bit
  let bit := bit + 16
  if secondaryBufValid then key ||| u32shl (secondaryStride &&& 0xffff) bit
  else key

/-! SPIR-V word layout.  An instruction's first word packs the word count in
the high 16 bits and the opcode in the low 16 bits. -/

def spvWordCountShift : Nat := 16

def spvOpCodeMask : Nat := 0xFFFF

/-- Modelled from the spec: the numeric values of the SPIR-V opcode and enum
constants come from the embedded `spv` headers, which are not among the
provided sources; the values used are the standard SPIR-V ones.  No claim
below depends on the particular numbers, only on their distinctness and on
the ordering `OpTypeVoid ≤ op ≤ OpTypeForwardPointer` used to detect the
start of the type section. -/
def spvOpTypeVoid : Nat := 19

def spvOpTypeInt : Nat := 21

def spvOpTypeFloat : Nat := 22

def spvOpTypeVector : Nat := 23

def spvOpTypeRuntimeArray : Nat := 29

def spvOpTypeStruct : Nat := 30

def spvOpTypePointer : Nat := 32

def spvOpTypeForwardPointer : Nat := 39

def spvOpConstant : Nat := 43

def spvOpFunction : Nat := 54

def spvOpVariable : Nat := 59

def spvOpDecorate : Nat := 71

def spvOpMemberDecorate : Nat := 72

def spvDecorationBufferBlock : Nat := 3

def spvDecorationArrayStride : Nat := 6

def spvDecorationBuiltIn : Nat := 11

def spvDecorationBinding : Nat := 33

def spvDecorationDescriptorSet : Nat := 34

def spvDecorationOffset : Nat := 35

def spvBuiltInVertexId : Nat := 5

def spvStorageClassInput : Nat := 1

def spvStorageClassUniform : Nat := 2

/-- `MakeSPIRVOp` (vk_debug.cpp:3063-3066). -/
def makeSPIRVOp (op wc : Nat) : Nat :=
  ((op &&& spvOpCodeMask) ||| (wc <<< spvWordCountShift)) % 2 ^ 32

/-! The four sentinel literals of `PatchFixedColShader`
(vk_debug.cpp:1929-1979) as IEEE-754 single bit patterns.  The C++ compares
`alias.data[it+3] == 1.1f` etc. as floats; since none of the sentinels is a
zero or a NaN, float equality against them coincides with bit-pattern
equality, so words are modelled by their 32-bit patterns. -/

def sentinel1 : Nat := 0x3F8CCCCD

def sentinel2 : Nat := 0x400CCCCD

def sentinel3 : Nat := 0x40533333

def sentinel4 : Nat := 0x408CCCCD

def isSentinel (v : Nat) : Bool :=
  v = sentinel1 || v = sentinel2 || v = sentinel3 || v = sentinel4

/-- The four caller-supplied colour component words (`float col[4]`). -/
structure Col4 where
  c0 : Nat
  c1 : Nat
  c2 : Nat
  c3 : Nat
deriving Repr, DecidableEq

/-- The in-place update applied by the `if/else if` chain of
`PatchFixedColShader` to the literal word of an `OpConstant`: the first
matching sentinel is replaced by the corresponding colour component;
a non-matching word is left untouched (only `RDCERR` is emitted). -/
def patchWord (col : Col4) (v : Nat) : Nat :=
  if v = sentinel1 then col.c0
  else if v = sentinel2 then col.c1
  else if v = sentinel3 then col.c2
  else if v = sentinel4 then col.c3
  else v

/-- The scan/patch loop of `PatchFixedColShader` (vk_debug.cpp:1944-1959):
starting at word 5, read `WordCount = (uint16_t)(word >> 16)` and
`opcode = word & 0xFFFF`; on `OpConstant` patch the word at `it+3` (counting
an error when no sentinel matches), then advance by `WordCount`.  The C++
`while` does not terminate on a zero word count; the fuel makes the model
total, returning `none` where the C++ would loop forever. -/
def patchLoop (col : Col4) : Nat → Nat → List Nat → Nat → Option (List Nat × Nat)
  | 0, it, spirv, errs =>
    if it < spirv.length then none else some (spirv, errs)
  | fuel + 1, it, spirv, errs =>
    if it < spirv.length then
      let w := spirv.getD it 0
      let wc := (w >>> spvWordCountShift) &&& 0xFFFF
      let op := w &&& spvOpCodeMask
      if op = spvOpConstant then
        let v := spirv.getD (it + 3) 0
        patchLoop col fuel (it + wc) (spirv.set (it + 3) (patchWord col v))
          (if isSentinel v then errs else errs + 1)
      else
        patchLoop col fuel (it + wc) spirv errs
    else some (spirv, errs)

/-- `PatchFixedColShader`'s patching of the embedded fixed-colour fragment
shader blob (the Vulkan module/shader creation that follows is external).
Starts at word 5 with fuel `spirv.length`, which suffices whenever every
scanned word count is at least 1. -/
def patchFixedColShader (col : Col4) (spirv : List Nat) : Option (List Nat × Nat) :=
  patchLoop col spirv.length 5 spirv 0

/-- The instruction offsets with opcode `OpConstant` that the scan of
`PatchFixedColShader` visits, read off the unpatched blob. -/
def constSites : Nat → Nat → List Nat → Option (List Nat)
  | 0, it, spirv => if it < spirv.length then none else some []
  | fuel + 1, it, spirv =>
    if it < spirv.length then
      let w := spirv.getD it 0
      let wc := (w >>> spvWordCountShift) &&& 0xFFFF
      let op := w &&& spvOpCodeMask
      match constSites fuel (it + wc) spirv with
      | none => none
      | some l => some (if op = spvOpConstant then it :: l else l)
    else some []

/-- Well-formedness of the scanned instruction stream: every visited
instruction has word count at least 1 (the C++ loop would otherwise never
terminate) and every visited `OpConstant` has word count at least 4 (its
literal word at `it+3` lies inside the instruction, as the SPIR-V spec
requires). -/
def wfScan : Nat → Nat → List Nat → Bool
  | 0, it, spirv => !(it < spirv.length : Bool)
  | fuel + 1, it, spirv =>
    if it < spirv.length then
      let w := spirv.getD it 0
      let wc := (w >>> spvWordCountShift) &&& 0xFFFF
      let op := w &&& spvOpCodeMask
      decide (1 ≤ wc) && (decide (op ≠ spvOpConstant) || decide (4 ≤ wc)) &&
        wfScan fuel (it + wc) spirv
    else true

/-! `AddOutputDumping` (vk_debug.cpp:3068-3558): four-pass SPIR-V rewrite
that reuses or synthesizes types/constants/variables and appends an output
buffer declaration, then writes the final id bound into header word 3. -/

/-- Component type of a reflected shader output
(`refl.OutputSig[i].compType`); only the distinctions tested by
`AddOutputDumping` are kept (`other` covers every value that trips the
"Unexpected component type" `RDCERR`). -/
inductive CompType where
  | uint : CompType
  | sint : CompType
  | float : CompType
  | double : CompType
  | other : CompType
deriving Repr, DecidableEq

/-- One element of `refl.OutputSig`. -/
structure SigElem where
  compType : CompType
  compCount : Nat
deriving Repr, DecidableEq

/-- Default `SigElem` used for out-of-range `getD` reads (never reached for
indices below `numOutputs`). -/
def defaultSigElem : SigElem := ⟨CompType.other, 0⟩

/-- One entry of the `outs[100]` scratch array: constant id, base type id
and uniform-pointer type id of an output (0 = not found/allocated yet). -/
structure OutIds where
  constID : Nat
  basetypeID : Nat
  uniformPtrID : Nat
deriving Repr, DecidableEq

def defaultOutIds : OutIds := ⟨0, 0, 0⟩

/-- State of the first (scan) pass of `AddOutputDumping`
(vk_debug.cpp:3099-3240). -/
structure ScanState where
  vertidxID : Nat
  sint32ID : Nat
  sint32PtrInID : Nat
  uint32ID : Nat
  halfID : Nat
  floatID : Nat
  doubleID : Nat
  outs : List OutIds
  maxDescSetBind : Nat
  decorateOffset : Nat
  typeVarOffset : Nat
deriving Repr, DecidableEq

/-- Initial scan state: every id 0, `outs[100] = {0}`, offsets 0. -/
def initScanState : ScanState :=
  ⟨0, 0, 0, 0, 0, 0, 0, List.replicate 100 defaultOutIds, 0, 0, 0⟩

/-- The base type id a reflected output of scalar/component type `ct` must
already have (`baseID` selection, vk_debug.cpp:3188-3199 and 3236-3250);
`other` corresponds to the `RDCERR("Unexpected component type ...")` path
and leaves 0. -/
def baseIDFor (s : ScanState) (ct : CompType) : Nat :=
  match ct with
  | CompType.uint => s.uint32ID
  | CompType.sint => s.sint32ID
  | CompType.float => s.floatID
  | CompType.double => s.doubleID
  | CompType.other => 0

/-- The per-output checks of the scan loop body (`for(int i=0; i <
numOutputs; i++)`, vk_debug.cpp:3177-3218) for output `i` with signature
`e`: recognise this output's index constant, vector base type, and uniform
pointer type. -/
def scanOutForIndex (s : ScanState) (spirv : List Nat) (it op i : Nat)
    (e : SigElem) (out : OutIds) : OutIds :=
  let out :=
    if op = spvOpConstant ∧ spirv.getD (it + 1) 0 = s.uint32ID ∧
        spirv.getD (it + 3) 0 = i
    then { out with constID := spirv.getD (it + 2) 0 } else out
  let out :=
    if e.compCount > 1 ∧ op = spvOpTypeVector then
      let baseID := baseIDFor s e.compType
      if baseID ≠ 0 ∧ spirv.getD (it + 2) 0 = baseID ∧
          spirv.getD (it + 3) 0 = e.compCount
      then { out with basetypeID := spirv.getD (it + 1) 0 } else out
    else out
  if out.basetypeID ≠ 0 ∧ op = spvOpTypePointer ∧
      spirv.getD (it + 2) 0 = spvStorageClassUniform ∧
      spirv.getD (it + 3) 0 = out.basetypeID
  then { out with uniformPtrID := spirv.getD (it + 1) 0 } else out

/-- Scan check: `OpDecorate ... BuiltIn VertexId` (vk_debug.cpp:3128-3133). -/
def scanBuiltinVertexId (spirv : List Nat) (it op : Nat) (s : ScanState) :
    ScanState :=
  if op = spvOpDecorate ∧ spirv.getD (it + 2) 0 = spvDecorationBuiltIn ∧
      spirv.getD (it + 3) 0 = spvBuiltInVertexId
  then { s with vertidxID := spirv.getD (it + 1) 0 } else s

/-- Scan check: `OpTypeInt 32 1` (vk_debug.cpp:3135-3140). -/
def scanSint32 (spirv : List Nat) (it op : Nat) (s : ScanState) : ScanState :=
  if op = spvOpTypeInt ∧ spirv.getD (it + 2) 0 = 32 ∧ spirv.getD (it + 3) 0 = 1
  then { s with sint32ID := spirv.getD (it + 1) 0 } else s

/-- Scan check: `OpTypeInt 32 0` (vk_debug.cpp:3142-3147). -/
def scanUint32 (spirv : List Nat) (it op : Nat) (s : ScanState) : ScanState :=
  if op = spvOpTypeInt ∧ spirv.getD (it + 2) 0 = 32 ∧ spirv.getD (it + 3) 0 = 0
  then { s with uint32ID := spirv.getD (it + 1) 0 } else s

/-- Scan check: `OpTypeFloat 16` (vk_debug.cpp:3149-3154). -/
def scanHalf (spirv : List Nat) (it op : Nat) (s : ScanState) : ScanState :=
  if op = spvOpTypeFloat ∧ spirv.getD (it + 2) 0 = 16
  then { s with halfID := spirv.getD (it + 1) 0 } else s

/-- Scan check: `OpTypeFloat 32` (vk_debug.cpp:3156-3161). -/
def scanFloat (spirv : List Nat) (it op : Nat) (s : ScanState) : ScanState :=
  if op = spvOpTypeFloat ∧ spirv.getD (it + 2) 0 = 32
  then { s with floatID := spirv.getD (it + 1) 0 } else s

/-- Scan check: `OpTypeFloat 64` (vk_debug.cpp:3163-3168). -/
def scanDouble (spirv : List Nat) (it op : Nat) (s : ScanState) : ScanState :=
  if op = spvOpTypeFloat ∧ spirv.getD (it + 2) 0 = 64
  then { s with doubleID := spirv.getD (it + 1) 0 } else s

/-- Scan check: `OpTypePointer Input sint32` (vk_debug.cpp:3170-3175),
compared against the currently discovered `sint32ID`. -/
def scanSint32PtrIn (spirv : List Nat) (it op : Nat) (s : ScanState) :
    ScanState :=
  if op = spvOpTypePointer ∧ spirv.getD (it + 2) 0 = spvStorageClassInput ∧
      spirv.getD (it + 3) 0 = s.sint32ID
  then { s with sint32PtrInID := spirv.getD (it + 1) 0 } else s

/-- Scan: the per-output loop over `outs` (vk_debug.cpp:3177-3218); every
access to the `outs` array uses a loop index `i < numOutputs`. -/
def scanOuts (refl : List SigElem) (spirv : List Nat) (it op : Nat)
    (s : ScanState) : ScanState :=
  { s with outs := s.outs.mapIdx (fun i out =>
    if i < refl.length
    then scanOutForIndex s spirv it op i (refl.getD i defaultSigElem) out
    else out) }

/-- Scan check: `OpDecorate ... DescriptorSet` (vk_debug.cpp:3220-3221). -/
def scanDescSet (spirv : List Nat) (it op : Nat) (s : ScanState) : ScanState :=
  if op = spvOpDecorate ∧ spirv.getD (it + 2) 0 = spvDecorationDescriptorSet
  then { s with maxDescSetBind := max s.maxDescSetBind (spirv.getD (it + 3) 0) }
  else s

/-- Scan check: the first type opcode ends the decorations section
(vk_debug.cpp:3223-3225). -/
def scanDecorateOffset (it op : Nat) (s : ScanState) : ScanState :=
  if s.decorateOffset = 0 ∧ spvOpTypeVoid ≤ op ∧ op ≤ spvOpTypeForwardPointer
  then { s with decorateOffset := it } else s

/-- One iteration of the scan loop (vk_debug.cpp:3123-3240): the checks of
the loop body composed in source order. -/
def scanInstr (refl : List SigElem) (spirv : List Nat) (it : Nat)
    (s : ScanState) : ScanState :=
  let op := spirv.getD it 0 &&& spvOpCodeMask
  scanDecorateOffset it op
    (scanDescSet spirv it op
      (scanOuts refl spirv it op
        (scanSint32PtrIn spirv it op
          (scanDouble spirv it op
            (scanFloat spirv it op
              (scanHalf spirv it op
                (scanUint32 spirv it op
                  (scanSint32 spirv it op
                    (scanBuiltinVertexId spirv it op s)))))))))

/-- The scan loop (`while(it < spirvLength)`, vk_debug.cpp:3122-3240): run
`scanInstr` on each instruction; on `OpFunction` record `typeVarOffset` and
break.  Fuel makes the C++ loop total (`none` where it would not
terminate). -/
def scanLoop (refl : List SigElem) :
    Nat → Nat → List Nat → ScanState → Option ScanState
  | 0, it, spirv, s => if it < spirv.length then none else some s
  | fuel + 1, it, spirv, s =>
    if it < spirv.length then
      let w := spirv.getD it 0
      let wc := (w >>> spvWordCountShift) &&& 0xFFFF
      let op := w &&& spvOpCodeMask
      let s := scanInstr refl spirv it s
      if op = spvOpFunction then some { s with typeVarOffset := it }
      else scanLoop refl fuel (it + wc) spirv s
    else some s

/-- The post-scan fixup (vk_debug.cpp:3242-3255): scalar outputs
(`compCount == 1`) take their base type id directly; then
`RDCASSERT(outs[i].basetypeID != 0)` for every output.  Returns the updated
state and the conjunction of those assert conditions. -/
def fixupOuts (refl : List SigElem) (s : ScanState) : ScanState × Bool :=
  let outs := s.outs.mapIdx (fun i out =>
    if i < refl.length ∧ (refl.getD i defaultSigElem).compCount = 1
    then { out with basetypeID := baseIDFor s (refl.getD i defaultSigElem).compType }
    else out)
  (({ s with outs := outs }),
   (List.range refl.length).all (fun i => (outs.getD i defaultOutIds).basetypeID ≠ 0))

/-- State of the emission passes of `AddOutputDumping`, including the
accounting the claims are about: `newIds` (each `idBound++` result in
order), `newTCV` (inserted type/constant/variable instructions) and
`newDecor` (inserted decoration instructions), and the running conjunction
of `RDCASSERT` conditions. -/
structure EmitSt where
  spirv : List Nat
  idBound : Nat
  typeVarOffset : Nat
  decorateOffset : Nat
  outs : List OutIds
  vertidxID : Nat
  sint32ID : Nat
  sint32PtrInID : Nat
  uint32ID : Nat
  maxDescSetBind : Nat
  newTCV : Nat
  newDecor : Nat
  newIds : List Nat
  assertsOK : Bool
deriving Repr, DecidableEq

/-- `vector::insert(begin()+k, ws)`. -/
def insertAt (l : List Nat) (k : Nat) (ws : List Nat) : List Nat :=
  l.take k ++ ws ++ l.drop k

/-- `idBound++`: returns the fresh id and records it. -/
def allocId (st : EmitSt) : Nat × EmitSt :=
  (st.idBound,
   { st with idBound := st.idBound + 1, newIds := st.newIds ++ [st.idBound] })

/-- Insert one type/constant/variable instruction at the end of the
types/variables section and bump the offset (the
`modSpirv.insert(begin()+typeVarOffset, ...); typeVarOffset += ...`
pattern). -/
def emitTypeVar (st : EmitSt) (ws : List Nat) : EmitSt :=
  { st with
    spirv := insertAt st.spirv st.typeVarOffset ws
    typeVarOffset := st.typeVarOffset + ws.length
    newTCV := st.newTCV + 1 }

/-- Insert one decoration instruction at the end of the decorations and
bump both offsets (vk_debug.cpp:3317-3329). -/
def emitDecor (st : EmitSt) (ws : List Nat) : EmitSt :=
  { st with
    spirv := insertAt st.spirv st.decorateOffset ws
    typeVarOffset := st.typeVarOffset + ws.length
    decorateOffset := st.decorateOffset + ws.length
    newDecor := st.newDecor + 1 }

/-- Insert the final `decorations` vector (a list of decoration
instructions also counted individually) in one `insert` call
(vk_debug.cpp:3546-3551). -/
def emitDecorBlock (st : EmitSt) (instrs : List (List Nat)) : EmitSt :=
  let ws := instrs.flatten
  { st with
    spirv := insertAt st.spirv st.decorateOffset ws
    typeVarOffset := st.typeVarOffset + ws.length
    decorateOffset := st.decorateOffset + ws.length
    newDecor := st.newDecor + instrs.length }

end RenderDoc

namespace RenderDoc

/-- The `x = idBound++; build instruction; insert at typeVarOffset` pattern
every new type/constant/variable declaration follows: allocate a fresh id
and insert the instruction built from it. -/
def emitNewTypeVar (st : EmitSt) (mk : Nat → List Nat) : Nat × EmitSt :=
  let (id, st) := allocId st
  (id, emitTypeVar st (mk id))

/-- Pass 2a, first block (vk_debug.cpp:3260-3278): declare the signed
32-bit int type if missing. -/
def emitSint32IfMissing (st : EmitSt) : EmitSt :=
  if st.sint32ID = 0 then
    let (id, st) := emitNewTypeVar st
      (fun id => [makeSPIRVOp spvOpTypeInt 4, id, 32, 1])
    { st with sint32ID := id }
  else st

/-- Pass 2a, second block (vk_debug.cpp:3280-3297): declare the input
pointer type to it if missing. -/
def emitSint32PtrIfMissing (st : EmitSt) : EmitSt :=
  if st.sint32PtrInID = 0 then
    let (id, st) := emitNewTypeVar st
      (fun id => [makeSPIRVOp spvOpTypePointer 4, id, spvStorageClassInput,
        st.sint32ID])
    { st with sint32PtrInID := id }
  else st

/-- Pass 2a, third block (vk_debug.cpp:3299-3339): declare the
`gl_VertexID` input variable and its `BuiltIn` decoration. -/
def emitVertidxVar (st : EmitSt) : EmitSt :=
  let (id, st) := emitNewTypeVar st
    (fun id => [makeSPIRVOp spvOpVariable 4, st.sint32PtrInID, id,
      spvStorageClassInput])
  let st := { st with vertidxID := id }
  emitDecor st [makeSPIRVOp spvOpDecorate 4, id, spvDecorationBuiltIn,
    spvBuiltInVertexId]

/-- Pass 2a (vk_debug.cpp:3257-3340): declare `gl_VertexID` if missing,
creating the signed-int type, its input pointer type, the variable and its
decoration as needed. -/
def emitVertidx (st : EmitSt) : EmitSt :=
  if st.vertidxID = 0 then
    emitVertidxVar (emitSint32PtrIfMissing (emitSint32IfMissing st))
  else st

/-- Pass 2b (vk_debug.cpp:3342-3359): declare the unsigned 32-bit int type
if missing. -/
def emitUint32 (st : EmitSt) : EmitSt :=
  if st.uint32ID = 0 then
    let (id, st) := emitNewTypeVar st
      (fun id => [makeSPIRVOp spvOpTypeInt 4, id, 32, 0])
    { st with uint32ID := id }
  else st

/-- Pass 2c, loop body (vk_debug.cpp:3363-3380): declare output `i`'s index
constant if the scan did not find one. -/
def emitConstantFor (i : Nat) (st : EmitSt) : EmitSt :=
  if (st.outs.getD i defaultOutIds).constID = 0 then
    let (id, st) := emitNewTypeVar st
      (fun id => [makeSPIRVOp spvOpConstant 4, st.uint32ID, id, i])
    { st with
      outs := st.outs.set i { st.outs.getD i defaultOutIds with constID := id } }
  else st

/-- Pass 2c (vk_debug.cpp:3361-3381): declare each missing per-output index
constant. -/
def emitConstants (n : Nat) (st : EmitSt) : EmitSt :=
  (List.range n).foldl (fun st i => emitConstantFor i st) st

/-- Pass 2d, propagation (vk_debug.cpp:3398-3407): a freshly declared
uniform pointer id is shared with every later output of the same base
type; `RDCASSERT(outs[j].uniformPtrID == 0)` is recorded in `assertsOK`. -/
def propagateUniformPtr (oi : OutIds) (id : Nat) (st : EmitSt) (j : Nat) :
    EmitSt :=
  let oj := st.outs.getD j defaultOutIds
  if oi.basetypeID = oj.basetypeID then
    { st with
      outs := st.outs.set j { oj with uniformPtrID := id }
      assertsOK := st.assertsOK && decide (oj.uniformPtrID = 0) }
  else st

/-- Pass 2d, loop body (vk_debug.cpp:3385-3413): declare output `i`'s
uniform pointer type if missing and propagate it. -/
def emitUniformPtrFor (n i : Nat) (st : EmitSt) : EmitSt :=
  if (st.outs.getD i defaultOutIds).uniformPtrID = 0 then
    let oi := st.outs.getD i defaultOutIds
    let (id, st) := emitNewTypeVar st
      (fun id => [makeSPIRVOp spvOpTypePointer 4, id, spvStorageClassUniform,
        oi.basetypeID])
    let st := { st with outs := st.outs.set i { oi with uniformPtrID := id } }
    (List.range' (i + 1) (n - (i + 1))).foldl (propagateUniformPtr oi id) st
  else st

/-- Pass 2d (vk_debug.cpp:3383-3414). -/
def emitUniformPtrs (n : Nat) (st : EmitSt) : EmitSt :=
  (List.range n).foldl (fun st i => emitUniformPtrFor n i st) st

/-- The element byte size of an output (vk_debug.cpp:3502-3512): 8 for
double, 4 for int/uint/float, otherwise the `RDCERR` path leaves
`elemSize = 0`. -/
def elemSize (ct : CompType) : Nat :=
  match ct with
  | CompType.double => 8
  | CompType.uint => 4
  | CompType.sint => 4
  | CompType.float => 4
  | CompType.other => 0

/-- One iteration of the member-offset decoration loop
(vk_debug.cpp:3494-3513): the accumulator is
`(instructions so far, member index i, memberOffset)`. -/
def memberDecorateStep (vertStructID : Nat) (acc : List (List Nat) × Nat × Nat)
    (e : SigElem) : List (List Nat) × Nat × Nat :=
  (acc.1 ++ [[makeSPIRVOp spvOpMemberDecorate 5, vertStructID, acc.2.1,
      spvDecorationOffset, acc.2.2]],
   acc.2.1 + 1,
   acc.2.2 + elemSize e.compType * e.compCount)

/-- The per-output `OpMemberDecorate ... Offset` instructions and the final
accumulated `memberOffset` (vk_debug.cpp:3493-3513). -/
def memberDecorates (refl : List SigElem) (vertStructID : Nat) :
    List (List Nat) × Nat :=
  let r := refl.foldl (memberDecorateStep vertStructID) ([], 0, 0)
  (r.1, r.2.2)

/-- The invariant of the id-allocation accounting: each `idBound++` adds
exactly one fresh id, the fresh ids are the consecutive range starting at
the original bound `b0`, every allocation is paired with exactly one
inserted type/constant/variable instruction, and insertions only grow the
module (`L0` is the original length). -/
def EmitInv (b0 L0 : Nat) (st : EmitSt) : Prop :=
  st.idBound = b0 + st.newTCV ∧
  st.newIds = List.range' b0 st.newTCV ∧
  st.newTCV = st.newIds.length ∧
  L0 ≤ st.spirv.length

/-- The indices at which `AddOutputDumping` accesses the fixed `outs[100]`
array: every access — in the scan loop (`scanOuts`), the fixup
(`fixupOuts`), the constant/pointer emission loops (`emitConstantFor`,
`emitUniformPtrFor` and its propagation over `j > i`), and the struct
member and member-decoration loops — uses a loop index below
`numOutputs`. -/
def outsAccessIndices (refl : List SigElem) : List Nat :=
  List.range refl.length

/-- Summary of the output-buffer block emitted by pass 3, recorded for the
truncation claim: the number of member fields of the per-vertex struct and
the number of per-member decorations. -/
structure DumpResult where
  spirv : List Nat
  idBound0 : Nat
  idBound : Nat
  typeVarOffset : Nat
  decorateOffset : Nat
  newTCV : Nat
  newDecor : Nat
  newIds : List Nat
  assertsOK : Bool
  vertStructMembers : Nat
  memberDecorateCount : Nat
deriving Repr, DecidableEq

/-- Pass 3 + pass 4 (vk_debug.cpp:3410-3558): emit the struct /
runtime-array / block-struct / pointer / variable declarations, the
decoration block, and finally write the id bound into header word 3. -/
def emitStructDecls (refl : List SigElem) (st : EmitSt) :
    EmitSt × (Nat × Nat × Nat × Nat × Nat) :=
  let n := refl.length
  let members := (List.range n).map (fun i => (st.outs.getD i defaultOutIds).basetypeID)
  let p1 := emitNewTypeVar st
    (fun id => [makeSPIRVOp spvOpTypeStruct (2 + n), id] ++ members)
  let p2 := emitNewTypeVar p1.2
    (fun id => [makeSPIRVOp spvOpTypeRuntimeArray 3, id, p1.1])
  let p3 := emitNewTypeVar p2.2
    (fun id => [makeSPIRVOp spvOpTypeStruct 3, id, p2.1])
  let p4 := emitNewTypeVar p3.2
    (fun id => [makeSPIRVOp spvOpTypePointer 4, id, spvStorageClassUniform,
      p3.1])
  let p5 := emitNewTypeVar p4.2
    (fun id => [makeSPIRVOp spvOpVariable 4, p4.1, id,
      spvStorageClassUniform])
  (p5.2, (p1.1, p2.1, p3.1, p4.1, p5.1))

/-- The `decorations` vector of pass 3 (vk_debug.cpp:3486-3544): one member
offset decoration per output followed by the five fixed decorations
(struct member offset, array stride, BufferBlock, descriptor set
`maxDescSetBind + 1`, binding 0). -/
def structDecorations (refl : List SigElem) (st : EmitSt)
    (vertStructID runtimeArrayID outputStructID outBufferVarID : Nat) :
    List (List Nat) :=
  let (memberDecs, memberOffset) := memberDecorates refl vertStructID
  memberDecs ++
    [[makeSPIRVOp spvOpMemberDecorate 5, outputStructID, 0, spvDecorationOffset, 0],
     [makeSPIRVOp spvOpDecorate 4, runtimeArrayID, spvDecorationArrayStride,
       memberOffset],
     [makeSPIRVOp spvOpDecorate 3, outputStructID, spvDecorationBufferBlock],
     [makeSPIRVOp spvOpDecorate 4, outBufferVarID, spvDecorationDescriptorSet,
       st.maxDescSetBind + 1],
     [makeSPIRVOp spvOpDecorate 4, outBufferVarID, spvDecorationBinding, 0]]

/-- The emission state after pass 3's declarations and decorations. -/
def emitFinalState (refl : List SigElem) (st : EmitSt) : EmitSt :=
  let p := emitStructDecls refl st
  emitDecorBlock p.1
    (structDecorations refl p.1 p.2.1 p.2.2.1 p.2.2.2.1 p.2.2.2.2.2)

def emitStructAndFinish (refl : List SigElem) (idBound0 : Nat) (st : EmitSt) :
    DumpResult :=
  let members := (List.range refl.length).map
    (fun i => (st.outs.getD i defaultOutIds).basetypeID)
  let stF := emitFinalState refl st
  { spirv := stF.spirv.set 3 stF.idBound
    idBound0 := idBound0
    idBound := stF.idBound
    typeVarOffset := stF.typeVarOffset
    decorateOffset := stF.decorateOffset
    newTCV := stF.newTCV
    newDecor := stF.newDecor
    newIds := stF.newIds
    assertsOK := stF.assertsOK
    vertStructMembers := members.length
    memberDecorateCount :=
      (memberDecorates refl (emitStructDecls refl st).2.1).1.length }

/-- `AddOutputDumping(refl, modSpirv)` (vk_debug.cpp:3068-3558).  The
`RDCASSERT(numOutputs < 100)` and the basetype/propagation asserts are
collected in `assertsOK`. -/
def initEmitSt (refl : List SigElem) (modSpirv : List Nat) (s : ScanState)
    (basetypeAsserts : Bool) : EmitSt :=
  { spirv := modSpirv
    idBound := modSpirv.getD 3 0
    typeVarOffset := s.typeVarOffset
    decorateOffset := s.decorateOffset
    outs := s.outs
    vertidxID := s.vertidxID
    sint32ID := s.sint32ID
    sint32PtrInID := s.sint32PtrInID
    uint32ID := s.uint32ID
    maxDescSetBind := s.maxDescSetBind
    newTCV := 0
    newDecor := 0
    newIds := []
    assertsOK := decide (refl.length < 100) && basetypeAsserts }

def addOutputDumping (refl : List SigElem) (modSpirv : List Nat) :
    Option DumpResult :=
  let idBound := modSpirv.getD 3 0
  match scanLoop refl modSpirv.length 5 modSpirv initScanState with
  | none => none
  | some s =>
    let p := fixupOuts refl s
    let st := initEmitSt refl modSpirv p.1 p.2
    let st := emitVertidx st
    let st := emitUint32 st
    let st := emitConstants refl.length st
    let st := emitUniformPtrs refl.length st
    some (emitStructAndFinish refl idBound st)

/-! `SerialiseNext` (vk_serialise.cpp:1352-1478).  The ~516-entry
`HANDLE_PNEXT()` switch classifies each `VkStructureType` tag into one of
three behaviours, which is all `SerialiseNext`'s control flow depends on;
the embedding is parametrised by that classification. -/

/-- Classification of a pNext type tag by the `HANDLE_PNEXT()` switch:
`strukt` for a `PNEXT_STRUCT` case (supported structure), `unsupported` for
a `PNEXT_UNSUPPORTED` case (compiled-out / not-implemented structure), and
`invalid` for a tag with no case of its own — including the explicit
`case VK_STRUCTURE_TYPE_MAX_ENUM: break;`, which leaves `handled == false`
exactly like a tag absent from the switch. -/
inductive PNextEntry where
  | strukt : PNextEntry
  | unsupported : PNextEntry
  | invalid : PNextEntry
deriving Repr, DecidableEq

/-- Fragment of the concrete dispatch table used for concrete evaluations:
tag 1000165001 (`VK_STRUCTURE_TYPE_ACCELERATION_STRUCTURE_CREATE_INFO_NV`)
is a `PNEXT_UNSUPPORTED` entry in the source (VK_NV_ray_tracing block), and
every tag not bound to a `PNEXT_STRUCT`/`PNEXT_UNSUPPORTED` case — here in
particular `0x7FFFFFFF = VK_STRUCTURE_TYPE_MAX_ENUM`, whose case is a bare
`break` — leaves `handled == false`, i.e. classifies as `invalid`. -/
def vkPNextTableFragment : Nat → PNextEntry := fun t =>
  if t = 1000165001 then PNextEntry.unsupported else PNextEntry.invalid

/-- Observable outcome of the reading branch of `SerialiseNext`:
`decoded` lists the sTypes of the chain nodes actually decoded into `pNext`
(`[]` models `pNext == NULL`), `errored` records `ser.SetErrored()`, and
`errLogs` counts `RDCERR` calls. -/
structure ReadNextResult where
  decoded : List Nat
  errored : Bool
  errLogs : Nat
deriving Repr, DecidableEq

/-- The reading branch of `SerialiseNext` (vk_serialise.cpp:1358-1421) on a
wire stream of nullable type tags (`none` is the NULL tag that terminates a
chain; payload bytes are abstracted away).  A `PNEXT_STRUCT` tag serialises
the struct, whose own serialisation recursively reads the rest of the
chain; a `PNEXT_UNSUPPORTED` tag does `RDCERR`, `pNext = NULL`,
`ser.SetErrored()` and returns; an unhandled tag does
`RDCERR("Invalid next structure sType")` and returns with `pNext` still
NULL — but without `SetErrored()`.  Fuel only rules out unbounded chains;
`none` is returned on exhaustion or on a truncated stream. -/
def serialiseNextRead (table : Nat → PNextEntry) :
    Nat → List (Option Nat) → Option ReadNextResult
  | _, [] => none
  | _, none :: _ => some ⟨[], false, 0⟩
  | 0, some _ :: _ => none
  | fuel + 1, some t :: rest =>
    match table t with
    | PNextEntry.strukt =>
      match serialiseNextRead table fuel rest with
      | none => none
      | some r => some ⟨t :: r.decoded, r.errored, r.errLogs⟩
    | PNextEntry.unsupported => some ⟨[], true, 1⟩
    | PNextEntry.invalid => some ⟨[], false, 1⟩

/-- Observable outcome of the writing branch of `SerialiseNext`: the
sequence of type tags written to the wire (`some t` per serialised node,
`none` for the terminating NULL tag) and the number of `RDCERR` logs. -/
structure WriteNextResult where
  out : List (Option Nat)
  errLogs : Nat
deriving Repr, DecidableEq

/-- The writing branch of `SerialiseNext` (vk_serialise.cpp:1422-1478): walk
the pNext chain (a list of node sTypes); a `PNEXT_STRUCT` node writes its
type tag and then the struct, whose serialisation continues with the rest
of the chain, and returns; a `PNEXT_UNSUPPORTED` node is logged and skipped
(`handled = true; break;` then `next = next->pNext`); an unhandled node is
logged (`"Invalid pNext structure sType"`) and likewise skipped.  A chain
that is exhausted (or was NULL) writes a NULL type tag. -/
def serialiseNextWrite (table : Nat → PNextEntry) : List Nat → WriteNextResult
  | [] => ⟨[none], 0⟩
  | t :: rest =>
    match table t with
    | PNextEntry.strukt =>
      let r := serialiseNextWrite table rest
      ⟨some t :: r.out, r.errLogs⟩
    | PNextEntry.unsupported =>
      let r := serialiseNextWrite table rest
      ⟨r.out, r.errLogs + 1⟩
    | PNextEntry.invalid =>
      let r := serialiseNextWrite table rest
      ⟨r.out, r.errLogs + 1⟩

/-! `DoSerialiseViaResourceId` and the optional-resource scope
(vk_serialise.cpp:202-269). -/

/-- `OptionalResourcesEnabled()`: the reading-side scope counter is
positive.  `ScopedOptional` increments it on construction and decrements on
destruction. -/
def optionalResourcesEnabled (counter : Nat) : Bool := counter > 0

/-- `HasLiveResource(id)` on the modelled resource manager (an association
list from serialised resource ids to live handles). -/
def hasLiveResource (live : List (Nat × Nat)) (id : Nat) : Bool :=
  (live.lookup id).isSome

/-- `GetLiveHandle(id)`: the live handle the manager maps the id to. -/
def getLiveHandle (live : List (Nat × Nat)) (id : Nat) : Nat :=
  (live.lookup id).getD 0

/-- Outcome of decoding a handle: the resulting handle value (0 models
`VK_NULL_HANDLE`) and whether the missing-resource `RDCWARN` fired. -/
structure HandleDecodeResult where
  el : Nat
  warned : Bool
deriving Repr, DecidableEq

/-- The reading path of `DoSerialiseViaResourceId` (vk_serialise.cpp:249-268)
after `DoSerialise(ser, id)` produced `id` (0 models the null
`ResourceId()`).  Only taken when a resource manager is present and the
state is not structured-exporting; otherwise `el` is left untouched.
`el` defaults to `VK_NULL_HANDLE`; a live resource replaces it with the
live handle; a missing one leaves it null, warning only when the
optional-resource scope is not active.  No path throws or asserts. -/
def doSerialiseViaResourceIdRead (rm : Option (List (Nat × Nat)))
    (structuredExporting : Bool) (optCounter : Nat) (elIn id : Nat) :
    HandleDecodeResult :=
  match rm with
  | none => ⟨elIn, false⟩
  | some live =>
    if structuredExporting then ⟨elIn, false⟩
    else if id ≠ 0 then
      if hasLiveResource live id then ⟨getLiveHandle live id, false⟩
      else if !optionalResourcesEnabled optCounter then ⟨0, true⟩
      else ⟨0, false⟩
    else ⟨0, false⟩

/-! `VulkanDebugManager::RenderOverlay` (vk_debug.cpp), drawcall/wireframe
branch (2148-2287) and backface-cull branch (2373-2520): the shared replay
state is snapshotted, mutated, and assigned back after submit-and-flush,
and every ephemeral object is destroyed before the branch ends. -/

/-- A `VkRect2D` scissor: `offset.x`, `offset.y` (`int32_t`) and
`extent.width`, `extent.height`. -/
structure OverlayScissor where
  x : Int
  y : Int
  w : Nat
  h : Nat
deriving Repr, DecidableEq

/-- The fields of `WrappedVulkan::PartialReplayData::StateVector` that the
overlay branches touch, plus `other`, which stands for every remaining
field of the by-value snapshot (`prevstate = state` copies them all, and
the code never writes them between snapshot and restore, though `ReplayLog`
may).  `lineWidth` is the 32-bit pattern of the float. -/
structure StateVector where
  renderPass : Nat
  subpass : Nat
  framebuffer : Nat
  pipeline : Nat
  scissors : List OverlayScissor
  lineWidth : Nat
  other : Nat
deriving Repr, DecidableEq

/-- IEEE-754 single bits of `1.0f`, assigned to `state.lineWidth` for the
wireframe overlay. -/
def floatOneBits : Nat := 0x3F800000

/-- Replay-session world visible to `RenderOverlay`: the shared mutable
replay state, the list of live debug-created object handles, and a fresh
handle source (Vulkan returns handles unused by any live object). -/
structure ReplayWorld where
  state : StateVector
  live : List Nat
  nextHandle : Nat
deriving Repr, DecidableEq

/-- Object creation (`vkCreateShaderModule` / `vkCreateShader` /
`vkCreateGraphicsPipelines`): returns a fresh handle and registers it
live. -/
def createObj (w : ReplayWorld) : Nat × ReplayWorld :=
  (w.nextHandle,
   { w with live := w.live ++ [w.nextHandle], nextHandle := w.nextHandle + 1 })

/-- Object destruction (`vkDestroyPipeline` / `vkDestroyShaderModule` /
`vkDestroyShader`): removes the handle from the live list. -/
def destroyObj (w : ReplayWorld) (h : Nat) : ReplayWorld :=
  { w with live := w.live.erase h }

/-- The overlay variants covered by the claim: `eTexOverlay_Drawcall`,
`eTexOverlay_Wireframe` and `eTexOverlay_BackfaceCull`. -/
inductive OverlayKind where
  | drawcall : OverlayKind
  | wireframe : OverlayKind
  | backfaceCull : OverlayKind
deriving Repr, DecidableEq

/-- The state mutation shared by both branches (vk_debug.cpp:2252-2270 and
2481-2497): point the state at the overlay render pass / framebuffer /
patched pipeline, and widen every dynamic scissor.  NOTE the source writes
`scissors[i].offset.x = 0;` twice and never touches `offset.y`
(vk_debug.cpp:2261-2262 and 2490-2491) — modelled faithfully: `y` is kept. -/
def mutateOverlayState (overlayRP overlayFB pipe : Nat) (st : StateVector) :
    StateVector :=
  { st with
    renderPass := overlayRP
    subpass := 0
    framebuffer := overlayFB
    pipeline := pipe
    scissors := st.scissors.map (fun sc => { sc with x := 0, w := 4096, h := 4096 }) }

/-- The drawcall/wireframe and backface-cull branches of `RenderOverlay`,
parametrised by the external `ReplayLog` collaborator (`replayLog`), which
may rewrite the shared replay state arbitrarily but does not touch the
debug manager's objects.  `overlayRP`/`overlayFB` are the long-lived
overlay render pass and framebuffer.  `SubmitCmds`/`FlushQ`/`GetNextCmd`/
command-buffer begin/end have no effect on the modelled observables; the
clear commands only write the overlay image. -/
def renderOverlayHighlight (kind : OverlayKind) (overlayRP overlayFB : Nat)
    (replayLog : StateVector → StateVector) (w : ReplayWorld) : ReplayWorld :=
  match kind with
  | OverlayKind.drawcall | OverlayKind.wireframe =>
    -- backup state
    let prevstate := w.state
    -- make patched shader (PatchFixedColShader creates a module and a shader)
    let (modId, w) := createObj w
    let (shadId, w) := createObj w
    -- make patched pipeline
    let (pipeId, w) := createObj w
    -- modify state
    let st := mutateOverlayState overlayRP overlayFB pipeId w.state
    let st := if kind = OverlayKind.wireframe
              then { st with lineWidth := floatOneBits } else st
    let w := { w with state := st }
    -- ReplayLog(frameID, 0, eventID, eReplay_OnlyDraw)
    let w := { w with state := replayLog w.state }
    -- SubmitCmds; FlushQ; GetNextCmd; BeginCommandBuffer: no modelled effect
    -- restore state
    let w := { w with state := prevstate }
    -- destroy ephemeral objects
    let w := destroyObj w pipeId
    let w := destroyObj w modId
    destroyObj w shadId
  | OverlayKind.backfaceCull =>
    -- backup state
    let prevstate := w.state
    -- first shader, no culling, writes red
    let (mod0, w) := createObj w
    let (shad0, w) := createObj w
    -- second shader, normal culling, writes green
    let (mod1, w) := createObj w
    let (shad1, w) := createObj w
    -- two patched pipelines
    let (pipe0, w) := createObj w
    let (pipe1, w) := createObj w
    -- modify state
    let w := { w with state := mutateOverlayState overlayRP overlayFB pipe0 w.state }
    -- ReplayLog with pipe[0]
    let w := { w with state := replayLog w.state }
    -- switch to pipe[1] and replay again
    let w := { w with state := { w.state with pipeline := pipe1 } }
    let w := { w with state := replayLog w.state }
    -- submit & flush; restore state
    let w := { w with state := prevstate }
    -- destroy loop: for i in 0,1: pipe[i], mod[i], shad[i]
    let w := destroyObj w pipe0
    let w := destroyObj w mod0
    let w := destroyObj w shad0
    let w := destroyObj w pipe1
    let w := destroyObj w mod1
    destroyObj w shad1

end RenderDoc

namespace RenderDoc

theorem alignUp_mod (x a : Nat) (h : 0 < a) : alignUp x a % a = 0 := by
  simp only [alignUp, if_neg (Nat.pos_iff_ne_zero.mp h)]
  exact Nat.mul_mod_left _ _

theorem GPUBuffer.map_sz (b : GPUBuffer) (s : Nat) : (b.map s).2.2.sz = b.sz := rfl

theorem GPUBuffer.map_align (b : GPUBuffer) (s : Nat) : (b.map s).2.2.align = b.align := rfl

theorem GPUBuffer.map_totalsize (b : GPUBuffer) (s : Nat) :
    (b.map s).2.2.totalsize = b.totalsize := rfl

theorem GPUBuffer.map_step (b : GPUBuffer) (s : Nat)
    (halign : 0 < b.align) (hdvd : b.align ∣ 2 ^ 32)
    (hcur : b.curoffset % b.align = 0)
    (hsz : (if s > 0 then s else b.sz) ≤ b.totalsize) :
    (b.map s).1 % b.align = 0 ∧
    (b.map s).1 + (b.map s).2.1 ≤ b.totalsize ∧
    (b.map s).2.2.curoffset % b.align = 0 := by
  simp only [GPUBuffer.map]
  set size := if s > 0 then s else b.sz with hsize
  by_cases hwrap : b.curoffset + size > b.totalsize
  · simp only [if_pos hwrap]
    refine ⟨?_, ?_, ?_⟩
    · rw [Nat.mod_mod_of_dvd 0 hdvd]; simp
    · simpa using hsz
    · exact alignUp_mod _ _ halign
  · simp only [if_neg hwrap]
    refine ⟨?_, ?_, ?_⟩
    · rw [Nat.mod_mod_of_dvd _ hdvd, hcur]
    · have := Nat.mod_le b.curoffset (2 ^ 32)
      omega
    · exact alignUp_mod _ _ halign

theorem GPUBuffer.mapRun_props (b : GPUBuffer) (sizes : List Nat)
    (halign : 0 < b.align) (hdvd : b.align ∣ 2 ^ 32)
    (hcur : b.curoffset % b.align = 0)
    (hsz : ∀ s ∈ sizes, (if s > 0 then s else b.sz) ≤ b.totalsize) :
    (∀ p ∈ (b.mapRun sizes).1, p.1 % b.align = 0 ∧ p.1 + p.2 ≤ b.totalsize) ∧
    (b.mapRun sizes).2.curoffset % b.align = 0 ∧
    (b.mapRun sizes).2.sz = b.sz ∧ (b.mapRun sizes).2.align = b.align ∧
    (b.mapRun sizes).2.totalsize = b.totalsize := by
  induction sizes generalizing b with
  | nil =>
    refine ⟨?_, hcur, rfl, rfl, rfl⟩
    intro p hp
    exact absurd hp (List.not_mem_nil p)
  | cons s rest ih =>
    obtain ⟨h1, h2, h3⟩ := GPUBuffer.map_step b s halign hdvd hcur (hsz s (by simp))
    have h4 := GPUBuffer.map_sz b s
    have h5 := GPUBuffer.map_align b s
    have h6 := GPUBuffer.map_totalsize b s
    have hrest := ih (b.map s).2.2 (h5 ▸ halign) (h5 ▸ hdvd) h3
      (by intro t ht; rw [h4, h6]; exact hsz t (by simp [ht]))
    refine ⟨?_, ?_, ?_, ?_, ?_⟩
    · intro p hp
      simp only [GPUBuffer.mapRun] at hp
      rcases List.mem_cons.mp hp with hphead | hptail
      · subst hphead; exact ⟨h1, h2⟩
      · have := hrest.1 p hptail
        rw [h5, h6] at this
        exact this
    · exact h5 ▸ hrest.2.1
    · exact hrest.2.2.1.trans h4
    · exact hrest.2.2.2.1.trans h5
    · exact hrest.2.2.2.2.trans h6

/-- C2 (amended): for every sequence of `GPUBuffer::Map` reservations whose
effective size (`usedsize`, or `sz` when `usedsize == 0`) is at most
`totalsize`, provided the alignment is positive and divides `2^32` (Vulkan
guarantees `minUniformBufferOffsetAlignment` is a power of two), every offset
returned through `bindoffset` satisfies `0 ≤ offset`,
`offset + size ≤ totalsize` and `offset mod align == 0`; and the reservation
start wraps to zero exactly when the next reservation would exceed the
capacity (otherwise it is the current cursor, truncated to 32 bits by the
`(uint32_t)offset` cast). -/
theorem gpuBuffer_ring_allocator_correct (b : GPUBuffer) (sizes : List Nat)
    (halign : 0 < b.align) (hdvd : b.align ∣ 2 ^ 32)
    (hcur : b.curoffset % b.align = 0)
    (hsz : ∀ s ∈ sizes, (if s > 0 then s else b.sz) ≤ b.totalsize) :
    (∀ p ∈ (b.mapRun sizes).1,
        0 ≤ p.1 ∧ p.1 % b.align = 0 ∧ p.1 + p.2 ≤ b.totalsize) ∧
    (∀ c : GPUBuffer, ∀ s : Nat,
       (c.curoffset + (if s > 0 then s else c.sz) > c.totalsize →
          (c.map s).1 = 0) ∧
       (c.curoffset + (if s > 0 then s else c.sz) ≤ c.totalsize →
          (c.map s).1 = c.curoffset % 2 ^ 32)) := by
  constructor
  · intro p hp
    have := (GPUBuffer.mapRun_props b sizes halign hdvd hcur hsz).1 p hp
    exact ⟨Nat.zero_le _, this.1, this.2⟩
  · intro c s
    constructor
    · intro hgt
      simp only [GPUBuffer.map, if_pos hgt]
      exact Nat.zero_mod _
    · intro hle
      have : ¬ (c.curoffset + (if s > 0 then s else c.sz) > c.totalsize) := by omega
      simp only [GPUBuffer.map, if_neg this]

/-- C2 witness: the ring-allocator theorem applied to a concrete buffer
(`Create(size=256, ringSize=4, align=16)`, so `totalsize = 1024`) and the
reservation sequence `[100, 200, 50]`. -/
theorem gpuBuffer_ring_allocator_witness :
    (∀ p ∈ ((GPUBuffer.create 256 4 16).mapRun [100, 200, 50]).1,
        0 ≤ p.1 ∧ p.1 % (GPUBuffer.create 256 4 16).align = 0 ∧
        p.1 + p.2 ≤ (GPUBuffer.create 256 4 16).totalsize) ∧
    (∀ c : GPUBuffer, ∀ s : Nat,
       (c.curoffset + (if s > 0 then s else c.sz) > c.totalsize →
          (c.map s).1 = 0) ∧
       (c.curoffset + (if s > 0 then s else c.sz) ≤ c.totalsize →
          (c.map s).1 = c.curoffset % 2 ^ 32)) :=
  gpuBuffer_ring_allocator_correct (GPUBuffer.create 256 4 16) [100, 200, 50]
    (by decide) ⟨2 ^ 28, by decide⟩ (by decide) (by decide)

/-- C2 counterexample: with only "size ≤ capacity" and "alignment positive"
(as the claim states it), the claim is false: for a buffer with
`align = 3` and `totalsize = 2^32 + 3`, the second reservation of the
sequence `[2^32+2, 1]` starts at 64-bit offset `2^32+2` (no wrap, since
`2^32+3 ≤ totalsize`), but the `(uint32_t)offset` cast hands back
`bindoffset = 2`, which is not 3-aligned. -/
theorem getD_set_ne (l : List Nat) (i j v : Nat) (h : i ≠ j) :
    (l.set i v).getD j 0 = l.getD j 0 := by
  simp [List.getD_eq_getElem?_getD, List.getElem?_set_ne h]

theorem getD_set_patchWord (col : Col4) (l : List Nat) (i : Nat) :
    (l.set i (patchWord col (l.getD i 0))).getD i 0 =
      patchWord col (l.getD i 0) := by
  by_cases h : i < l.length
  · simp [List.getD_eq_getElem?_getD, List.getElem?_set_self, h]
  · rw [List.set_eq_of_length_le (by omega)]
    rw [List.getD_eq_default _ _ (by omega)]
    simp [patchWord, sentinel1, sentinel2, sentinel3, sentinel4]

theorem length_set_patch (l : List Nat) (i v : Nat) : (l.set i v).length = l.length :=
  List.length_set l i v

theorem constSites_congr : ∀ (fuel it : Nat) (s1 s2 : List Nat),
    s1.length = s2.length → (∀ j, it ≤ j → s1.getD j 0 = s2.getD j 0) →
    constSites fuel it s1 = constSites fuel it s2 := by
  intro fuel
  induction fuel with
  | zero => intro it s1 s2 hlen _; simp [constSites, hlen]
  | succ fuel ih =>
    intro it s1 s2 hlen hagree
    have hit : s1.getD it 0 = s2.getD it 0 := hagree it (le_refl it)
    simp only [constSites, hlen, hit]
    rw [ih (it + ((s2.getD it 0 >>> spvWordCountShift) &&& 0xFFFF)) s1 s2 hlen
      (fun j hj => hagree j (by omega))]

theorem wfScan_congr : ∀ (fuel it : Nat) (s1 s2 : List Nat),
    s1.length = s2.length → (∀ j, it ≤ j → s1.getD j 0 = s2.getD j 0) →
    wfScan fuel it s1 = wfScan fuel it s2 := by
  intro fuel
  induction fuel with
  | zero => intro it s1 s2 hlen _; simp [wfScan, hlen]
  | succ fuel ih =>
    intro it s1 s2 hlen hagree
    have hit : s1.getD it 0 = s2.getD it 0 := hagree it (le_refl it)
    simp only [wfScan, hlen, hit]
    rw [ih (it + ((s2.getD it 0 >>> spvWordCountShift) &&& 0xFFFF)) s1 s2 hlen
      (fun j hj => hagree j (by omega))]

theorem constSites_ge : ∀ (fuel it : Nat) (spirv : List Nat) (l : List Nat),
    constSites fuel it spirv = some l → ∀ s ∈ l, it ≤ s := by
  intro fuel
  induction fuel with
  | zero =>
    intro it spirv l h s hs
    by_cases hlt : it < spirv.length
    · simp [constSites, hlt] at h
    · simp [constSites, hlt] at h
      subst h; cases hs
  | succ fuel ih =>
    intro it spirv l h s hs
    by_cases hlt : it < spirv.length
    · simp only [constSites, if_pos hlt] at h
      rcases hrec : constSites fuel
          (it + ((spirv.getD it 0 >>> spvWordCountShift) &&& 0xFFFF)) spirv with
        _ | l'
      · rw [hrec] at h; cases h
      · rw [hrec] at h
        simp only [Option.some.injEq] at h
        subst h
        by_cases hop : spirv.getD it 0 &&& spvOpCodeMask = spvOpConstant
        · rw [if_pos hop] at hs
          rcases List.mem_cons.mp hs with hhead | htail
          · omega
          · have := ih _ _ _ hrec s htail; omega
        · rw [if_neg hop] at hs
          have := ih _ _ _ hrec s hs; omega
    · simp [constSites, hlt] at h
      subst h; cases hs

theorem patchLoop_spec (col : Col4) :
    ∀ (fuel it : Nat) (spirv : List Nat) (errs : Nat),
    wfScan fuel it spirv = true →
    ∃ sites out,
      constSites fuel it spirv = some sites ∧
      patchLoop col fuel it spirv errs =
        some (out, errs + (sites.filter
          (fun s => !isSentinel (spirv.getD (s + 3) 0))).length) ∧
      out.length = spirv.length ∧
      (∀ j, out.getD j 0 =
        if j ∈ sites.map (· + 3) then patchWord col (spirv.getD j 0)
        else spirv.getD j 0) := by
  intro fuel
  induction fuel with
  | zero =>
    intro it spirv errs hwf
    simp only [wfScan, Bool.not_eq_true', decide_eq_false_iff_not] at hwf
    refine ⟨[], spirv, ?_, ?_, rfl, ?_⟩
    · simp [constSites, hwf]
    · simp [patchLoop, hwf]
    · intro j; simp
  | succ fuel ih =>
    intro it spirv errs hwf
    by_cases hlt : it < spirv.length
    · simp only [wfScan, if_pos hlt, Bool.and_eq_true, Bool.or_eq_true,
        decide_eq_true_eq] at hwf
      obtain ⟨⟨hwc1, hop4⟩, hwfrec⟩ := hwf
      by_cases hop : spirv.getD it 0 &&& spvOpCodeMask = spvOpConstant
      · -- OpConstant instruction: the word at it+3 is patched in place
        have hwc4 : 4 ≤ (spirv.getD it 0 >>> spvWordCountShift) &&& 0xFFFF := by
          rcases hop4 with h | h
          · exact absurd hop h
          · exact h
        set wc := (spirv.getD it 0 >>> spvWordCountShift) &&& 0xFFFF with hwcdef
        set v := spirv.getD (it + 3) 0 with hvdef
        set spirvP := spirv.set (it + 3) (patchWord col v) with hsPdef
        have hlenP : spirvP.length = spirv.length := List.length_set _ _ _
        have hagree : ∀ j, it + wc ≤ j → spirvP.getD j 0 = spirv.getD j 0 := by
          intro j hj
          exact getD_set_ne spirv (it + 3) j _ (by omega)
        have hwfP : wfScan fuel (it + wc) spirvP = true := by
          rw [wfScan_congr fuel (it + wc) spirvP spirv hlenP hagree]
          exact hwfrec
        obtain ⟨sites', out, hsites', hloop, hlenO, hptw⟩ :=
          ih (it + wc) spirvP (if isSentinel v then errs else errs + 1) hwfP
        have hsitesO : constSites fuel (it + wc) spirv = some sites' := by
          rw [← constSites_congr fuel (it + wc) spirvP spirv hlenP hagree]
          exact hsites'
        have hge : ∀ s ∈ sites', it + wc ≤ s := constSites_ge fuel (it + wc) spirvP sites' hsites'
        refine ⟨it :: sites', out, ?_, ?_, hlenO.trans hlenP, ?_⟩
        · simp only [constSites, if_pos hlt, ← hwcdef, hsitesO, if_pos hop]
        · simp only [patchLoop, if_pos hlt, ← hwcdef, ← hvdef, ← hsPdef, if_pos hop]
          have hfiltereq :
              sites'.filter (fun s => !isSentinel (spirvP.getD (s + 3) 0)) =
              sites'.filter (fun s => !isSentinel (spirv.getD (s + 3) 0)) := by
            refine List.filter_congr ?_
            intro s hs
            rw [hagree (s + 3) (by have := hge s hs; omega)]
          have hlen_eq :
              (if isSentinel v then errs else errs + 1) +
                (sites'.filter (fun s => !isSentinel (spirv.getD (s + 3) 0))).length
              = errs + ((it :: sites').filter
                  (fun s => !isSentinel (spirv.getD (s + 3) 0))).length := by
            have hv' : spirv[it + 3]?.getD 0 = v := by
              rw [← List.getD_eq_getElem?_getD]
            by_cases hsent : isSentinel v
            · simp [List.filter_cons, hv', hsent]
            · simp [List.filter_cons, hv', hsent, List.length_cons]
              omega
          rw [hloop, hfiltereq, hlen_eq]
        · intro j
          have hj := hptw j
          have hmem : (j ∈ List.map (fun x => x + 3) (it :: sites')) ↔
              (j = it + 3 ∨ j ∈ List.map (fun x => x + 3) sites') := by
            simp
          by_cases hj1 : j ∈ List.map (fun x => x + 3) sites'
          · obtain ⟨s, hs, hsj⟩ := List.mem_map.mp hj1
            have hsj' : s + 3 = j := hsj
            have hsge := hge s hs
            have hjne : it + 3 ≠ j := by omega
            rw [if_pos hj1] at hj
            have hPj : spirvP.getD j 0 = spirv.getD j 0 :=
              getD_set_ne spirv (it + 3) j _ hjne
            rw [hPj] at hj
            rw [hj, if_pos (hmem.mpr (Or.inr hj1))]
          · rw [if_neg hj1] at hj
            by_cases hj2 : j = it + 3
            · have hPj : spirvP.getD j 0 = patchWord col (spirv.getD j 0) := by
                subst hj2
                exact getD_set_patchWord col spirv (it + 3)
              rw [hPj] at hj
              rw [hj, if_pos (hmem.mpr (Or.inl hj2))]
            · have hPj : spirvP.getD j 0 = spirv.getD j 0 :=
                getD_set_ne spirv (it + 3) j _ (fun h => hj2 h.symm)
              rw [hPj] at hj
              rw [hj, if_neg (fun h => (hmem.mp h).elim hj2 hj1)]
      · -- not an OpConstant: the blob is left untouched at this step
        obtain ⟨sites', out, hsites', hloop, hlenO, hptw⟩ :=
          ih (it + ((spirv.getD it 0 >>> spvWordCountShift) &&& 0xFFFF)) spirv errs hwfrec
        refine ⟨sites', out, ?_, ?_, hlenO, hptw⟩
        · simp only [constSites, if_pos hlt, hsites', if_neg hop]
        · simp only [patchLoop, if_pos hlt, if_neg hop]
          exact hloop
    · refine ⟨[], spirv, ?_, ?_, rfl, ?_⟩
      · simp [constSites, hlt]
      · simp [patchLoop, hlt]
      · intro j; simp

theorem serialiseNextWrite_filter (table : Nat → PNextEntry) :
    ∀ chain : List Nat,
    (serialiseNextWrite table chain).out =
      (chain.filter (fun t => decide (table t = PNextEntry.strukt))).map some
        ++ [none] := by
  intro chain
  induction chain with
  | nil => rfl
  | cons t rest ih =>
    cases htab : table t with
    | strukt => simp [serialiseNextWrite, htab, List.filter_cons, ih]
    | unsupported => simp [serialiseNextWrite, htab, List.filter_cons, ih]
    | invalid => simp [serialiseNextWrite, htab, List.filter_cons, ih]

/-- C6: when `SerialiseNext` writes an extension chain, unsupported (and
unrecognised) nodes are logged and skipped while the walk continues, so the
tags written are exactly the supported (`PNEXT_STRUCT`) nodes of the chain
in order, followed by the NULL terminator tag — in particular every
supported node after an unsupported one is still serialised; and a chain
that is empty (`pNext == NULL`) or consists only of skipped nodes is written
as just the NULL type tag. -/
theorem serialiseNextWrite_skips_unsupported (table : Nat → PNextEntry)
    (chain : List Nat) :
    (serialiseNextWrite table chain).out =
      (chain.filter (fun t => decide (table t = PNextEntry.strukt))).map some
        ++ [none] ∧
    ((∀ t ∈ chain, table t ≠ PNextEntry.strukt) →
      (serialiseNextWrite table chain).out = [none]) := by
  refine ⟨serialiseNextWrite_filter table chain, ?_⟩
  intro hall
  rw [serialiseNextWrite_filter table chain]
  have hnil : chain.filter (fun t => decide (table t = PNextEntry.strukt)) = [] := by
    induction chain with
    | nil => rfl
    | cons t rest ih =>
      rw [List.filter_cons]
      have : ¬ (table t = PNextEntry.strukt) := hall t (by simp)
      simp only [decide_eq_false this, Bool.false_eq_true, if_false]
      exact ih (fun u hu => hall u (by simp [hu]))
  rw [hnil]
  rfl

/-- C6 witness: writing the concrete chain `[3, 7]` against a table where
tag 3 is unsupported and tag 7 supported: the supported node after the
unsupported one is still written (`out = [some 7, none]` by the filter
equation). -/
theorem serialiseNextWrite_skips_unsupported_witness :
    (serialiseNextWrite
        (fun t => if t = 7 then PNextEntry.strukt else PNextEntry.unsupported)
        [3, 7]).out =
      (([3, 7].filter (fun t => decide
          ((if t = 7 then PNextEntry.strukt else PNextEntry.unsupported)
            = PNextEntry.strukt))).map some) ++ [none] ∧
    ((∀ t ∈ [3, 7],
        (if t = 7 then PNextEntry.strukt else PNextEntry.unsupported)
          ≠ PNextEntry.strukt) →
      (serialiseNextWrite
          (fun t => if t = 7 then PNextEntry.strukt else PNextEntry.unsupported)
          [3, 7]).out = [none]) :=
  serialiseNextWrite_skips_unsupported
    (fun t => if t = 7 then PNextEntry.strukt else PNextEntry.unsupported) [3, 7]

/-- C5 (amended): when `SerialiseNext` reads a chain node whose type tag is
a compiled-out (`PNEXT_UNSUPPORTED`) tag, the read is unrecoverable: the
serialiser is put into the errored state, `pNext` is set to null and no
further nodes of the chain are decoded.  A tag with no case in the switch
at all (outside the recognised set) also stops decoding with `pNext` null
and an `RDCERR` log, but does NOT set the errored state. -/
theorem serialiseNextRead_unsupported_fatal (table : Nat → PNextEntry)
    (fuel t : Nat) (rest : List (Option Nat)) :
    (table t = PNextEntry.unsupported →
      serialiseNextRead table (fuel + 1) (some t :: rest) =
        some ⟨[], true, 1⟩) ∧
    (table t = PNextEntry.invalid →
      serialiseNextRead table (fuel + 1) (some t :: rest) =
        some ⟨[], false, 1⟩) := by
  constructor <;> intro h <;> simp [serialiseNextRead, h]

/-- C5 witness: the reading theorem applied to the concrete table fragment:
tag 1000165001 (compiled-out `VK_NV_ray_tracing` structure) sets the
errored state; tag `0x7FFFFFFF` (`VK_STRUCTURE_TYPE_MAX_ENUM`, no handling
case) only logs. -/
theorem serialiseNextRead_unsupported_fatal_witness :
    serialiseNextRead vkPNextTableFragment 1 [some 1000165001, none] =
      some ⟨[], true, 1⟩ ∧
    serialiseNextRead vkPNextTableFragment 1 [some 0x7FFFFFFF, none] =
      some ⟨[], false, 1⟩ :=
  ⟨(serialiseNextRead_unsupported_fatal vkPNextTableFragment 0 1000165001
      [none]).1 (by decide),
   (serialiseNextRead_unsupported_fatal vkPNextTableFragment 0 0x7FFFFFFF
      [none]).2 (by decide)⟩

/-- C5 counterexample: the claim states that a tag "not in the recognized
set" also puts the serialiser into an errored state, but reading
`VK_STRUCTURE_TYPE_MAX_ENUM` (0x7FFFFFFF, whose switch case is a bare
`break`, so `handled` stays false) yields `errored = false`: only
`RDCERR("Invalid next structure sType")` fires and `pNext` is left null. -/
theorem serialiseNextRead_invalid_not_errored_counterexample :
    serialiseNextRead vkPNextTableFragment 1 [some 0x7FFFFFFF, none] =
      some ⟨[], false, 1⟩ := rfl

/-- C7: for every handle type serialised via `DoSerialiseViaResourceId`,
when reading with a resource manager (live-replay, not structured
exporting): a null serialised id or an id with no live resource decodes to
the null handle (and the operation is total — no throw or abort on any
path); an id with a live resource decodes to the live handle the manager
maps it to. -/
theorem doSerialiseViaResourceId_fails_closed (live : List (Nat × Nat))
    (optCounter elIn id : Nat) :
    (id = 0 →
      doSerialiseViaResourceIdRead (some live) false optCounter elIn id =
        ⟨0, false⟩) ∧
    (live.lookup id = none →
      (doSerialiseViaResourceIdRead (some live) false optCounter elIn id).el
        = 0) ∧
    (∀ h, id ≠ 0 → live.lookup id = some h →
      doSerialiseViaResourceIdRead (some live) false optCounter elIn id =
        ⟨h, false⟩) := by
  refine ⟨?_, ?_, ?_⟩
  · intro h
    simp [doSerialiseViaResourceIdRead, h]
  · intro h
    by_cases hid : id = 0
    · simp [doSerialiseViaResourceIdRead, hid]
    · by_cases hopt : optionalResourcesEnabled optCounter <;>
        simp [doSerialiseViaResourceIdRead, hid, hasLiveResource, h, hopt]
  · intro h hid hlook
    simp [doSerialiseViaResourceIdRead, hid, hasLiveResource, getLiveHandle, hlook]

/-- C7 witness: the fails-closed theorem at the concrete manager
`[(7, 42)]`: null id decodes to the null handle, missing id 5 decodes to the
null handle, live id 7 decodes to handle 42. -/
theorem doSerialiseViaResourceId_fails_closed_witness :
    doSerialiseViaResourceIdRead (some [(7, 42)]) false 0 9 0 = ⟨0, false⟩ ∧
    (doSerialiseViaResourceIdRead (some [(7, 42)]) false 0 9 5).el = 0 ∧
    doSerialiseViaResourceIdRead (some [(7, 42)]) false 0 9 7 = ⟨42, false⟩ :=
  ⟨(doSerialiseViaResourceId_fails_closed [(7, 42)] 0 9 0).1 rfl,
   (doSerialiseViaResourceId_fails_closed [(7, 42)] 0 9 5).2.1 (by decide),
   (doSerialiseViaResourceId_fails_closed [(7, 42)] 0 9 7).2.2 42
     (by decide) (by decide)⟩

/-- C8 (amended): while the optional-resource scope is active (counter
positive), a lookup that finds no live resource resolves non-fatally to
null with the missing-resource warning suppressed (no log); outside the
scope the same missing reference is logged as a warning and still resolves
to null. -/
theorem optionalResources_scope_suppresses_warning (live : List (Nat × Nat))
    (optCounter elIn id : Nat) (hid : id ≠ 0)
    (hmiss : live.lookup id = none) :
    (0 < optCounter →
      doSerialiseViaResourceIdRead (some live) false optCounter elIn id =
        ⟨0, false⟩) ∧
    (optCounter = 0 →
      doSerialiseViaResourceIdRead (some live) false optCounter elIn id =
        ⟨0, true⟩) := by
  constructor <;> intro h <;>
    simp [doSerialiseViaResourceIdRead, hid, hasLiveResource, hmiss,
      optionalResourcesEnabled, h]

/-- C8 witness: the scope theorem at the concrete manager `[(7, 42)]` and
missing id 5, once inside the scope (counter 3: null, no warning) and once
outside (counter 0: null, warning). -/
theorem optionalResources_scope_suppresses_warning_witness :
    doSerialiseViaResourceIdRead (some [(7, 42)]) false 3 9 5 = ⟨0, false⟩ ∧
    doSerialiseViaResourceIdRead (some [(7, 42)]) false 0 9 5 = ⟨0, true⟩ :=
  ⟨(optionalResources_scope_suppresses_warning [(7, 42)] 3 9 5 (by decide)
      (by decide)).1 (by decide),
   (optionalResources_scope_suppresses_warning [(7, 42)] 0 9 5 (by decide)
      (by decide)).2 rfl⟩

/-- C8 counterexample: the claim states that inside the scope a missing
reference resolves to null "with a log"; in the code the warning is exactly
what the scope suppresses: with counter 1 and missing id 5 the result is
the null handle with `warned = false` — no log of any kind fires on this
path. -/
theorem optionalResources_scope_counterexample :
    (doSerialiseViaResourceIdRead (some [(7, 42)]) false 1 9 5).el = 0 ∧
    (doSerialiseViaResourceIdRead (some [(7, 42)]) false 1 9 5).warned
      = false := ⟨rfl, rfl⟩

theorem erase_seq3 (l : List Nat) (n : Nat) (hf : ∀ h ∈ l, h < n) :
    ((((l ++ [n, n + 1, n + 2]).erase (n + 2)).erase n).erase (n + 1)) = l := by
  have h0 : n ∉ l := fun hc => absurd (hf _ hc) (by omega)
  have h1 : (n + 1) ∉ l := fun hc => absurd (hf _ hc) (by omega)
  have h2 : (n + 2) ∉ l := fun hc => absurd (hf _ hc) (by omega)
  rw [List.erase_append_right _ h2,
      show ([n, n + 1, n + 2] : List Nat).erase (n + 2) = [n, n + 1] by
        simp [List.erase_cons],
      List.erase_append_right _ h0,
      show ([n, n + 1] : List Nat).erase n = [n + 1] by simp [List.erase_cons],
      List.erase_append_right _ h1,
      show ([n + 1] : List Nat).erase (n + 1) = [] by simp [List.erase_cons],
      List.append_nil]

theorem erase_seq6 (l : List Nat) (n : Nat) (hf : ∀ h ∈ l, h < n) :
    (((((((l ++ [n, n + 1, n + 2, n + 3, n + 4, n + 5]).erase (n + 4)).erase
      n).erase (n + 1)).erase (n + 5)).erase (n + 2)).erase (n + 3)) = l := by
  have h0 : n ∉ l := fun hc => absurd (hf _ hc) (by omega)
  have h1 : (n + 1) ∉ l := fun hc => absurd (hf _ hc) (by omega)
  have h2 : (n + 2) ∉ l := fun hc => absurd (hf _ hc) (by omega)
  have h3 : (n + 3) ∉ l := fun hc => absurd (hf _ hc) (by omega)
  have h4 : (n + 4) ∉ l := fun hc => absurd (hf _ hc) (by omega)
  have h5 : (n + 5) ∉ l := fun hc => absurd (hf _ hc) (by omega)
  rw [List.erase_append_right _ h4,
      show ([n, n + 1, n + 2, n + 3, n + 4, n + 5] : List Nat).erase (n + 4)
          = [n, n + 1, n + 2, n + 3, n + 5] by simp [List.erase_cons],
      List.erase_append_right _ h0,
      show ([n, n + 1, n + 2, n + 3, n + 5] : List Nat).erase n
          = [n + 1, n + 2, n + 3, n + 5] by simp [List.erase_cons],
      List.erase_append_right _ h1,
      show ([n + 1, n + 2, n + 3, n + 5] : List Nat).erase (n + 1)
          = [n + 2, n + 3, n + 5] by simp [List.erase_cons],
      List.erase_append_right _ h5,
      show ([n + 2, n + 3, n + 5] : List Nat).erase (n + 5)
          = [n + 2, n + 3] by simp [List.erase_cons],
      List.erase_append_right _ h2,
      show ([n + 2, n + 3] : List Nat).erase (n + 2) = [n + 3] by
        simp [List.erase_cons],
      List.erase_append_right _ h3,
      show ([n + 3] : List Nat).erase (n + 3) = [] by simp [List.erase_cons],
      List.append_nil]

/-- C1: for the drawcall/wireframe and backface-cull overlay variants, the
`prevstate` snapshot taken before the ephemeral draw is assigned back to the
shared replay state after submit-and-flush — whatever `ReplayLog` did to
that state in between — so after the request the externally observed replay
state (bound pipeline, render pass, framebuffer, scissors, and every other
field of the snapshot) equals the state immediately before the request; and
every pipeline, shader module and shader created for the request is
destroyed before the branch returns: the live-object list is exactly what
it was, and no handle allocated during the request survives. -/
theorem renderOverlay_restores_state_and_objects (kind : OverlayKind)
    (overlayRP overlayFB : Nat) (replayLog : StateVector → StateVector)
    (w : ReplayWorld) (hfresh : ∀ h ∈ w.live, h < w.nextHandle) :
    (renderOverlayHighlight kind overlayRP overlayFB replayLog w).state
      = w.state ∧
    (renderOverlayHighlight kind overlayRP overlayFB replayLog w).live
      = w.live ∧
    (∀ h, w.nextHandle ≤ h →
      h ∉ (renderOverlayHighlight kind overlayRP overlayFB replayLog w).live) := by
  have hmain :
      (renderOverlayHighlight kind overlayRP overlayFB replayLog w).state
        = w.state ∧
      (renderOverlayHighlight kind overlayRP overlayFB replayLog w).live
        = w.live := by
    cases kind with
    | drawcall =>
      constructor
      · rfl
      · simp only [renderOverlayHighlight, createObj, destroyObj]
        simpa using erase_seq3 w.live w.nextHandle hfresh
    | wireframe =>
      constructor
      · rfl
      · simp only [renderOverlayHighlight, createObj, destroyObj]
        simpa using erase_seq3 w.live w.nextHandle hfresh
    | backfaceCull =>
      constructor
      · rfl
      · simp only [renderOverlayHighlight, createObj, destroyObj]
        simpa using erase_seq6 w.live w.nextHandle hfresh
  refine ⟨hmain.1, hmain.2, ?_⟩
  intro h hge hmem
  rw [hmain.2] at hmem
  exact absurd (hfresh h hmem) (by omega)

/-- C1 witness: the restoration theorem at a concrete world (one live object
handle 3, cursor 10, a one-scissor state) for the wireframe variant with a
`ReplayLog` oracle that scrambles the state. -/
theorem renderOverlay_restores_state_and_objects_witness :
    (renderOverlayHighlight OverlayKind.wireframe 100 101
        (fun st => { st with pipeline := 77, other := st.other + 1 })
        ⟨⟨1, 0, 2, 5, [⟨2, 3, 64, 64⟩], 0, 9⟩, [3], 10⟩).state
      = ⟨1, 0, 2, 5, [⟨2, 3, 64, 64⟩], 0, 9⟩ ∧
    (renderOverlayHighlight OverlayKind.wireframe 100 101
        (fun st => { st with pipeline := 77, other := st.other + 1 })
        ⟨⟨1, 0, 2, 5, [⟨2, 3, 64, 64⟩], 0, 9⟩, [3], 10⟩).live = [3] ∧
    (∀ h, 10 ≤ h →
      h ∉ (renderOverlayHighlight OverlayKind.wireframe 100 101
        (fun st => { st with pipeline := 77, other := st.other + 1 })
        ⟨⟨1, 0, 2, 5, [⟨2, 3, 64, 64⟩], 0, 9⟩, [3], 10⟩).live) :=
  renderOverlay_restores_state_and_objects OverlayKind.wireframe 100 101
    (fun st => { st with pipeline := 77, other := st.other + 1 })
    ⟨⟨1, 0, 2, 5, [⟨2, 3, 64, 64⟩], 0, 9⟩, [3], 10⟩
    (by decide)

theorem insertAt_length (l : List Nat) (k : Nat) (ws : List Nat) :
    (insertAt l k ws).length = l.length + ws.length := by
  simp [insertAt, List.length_take, List.length_drop]
  omega

theorem range'_snoc (b l : Nat) :
    List.range' b l ++ [b + l] = List.range' b (l + 1) := by
  induction l generalizing b with
  | zero => simp
  | succ n ih =>
    rw [List.range'_succ, List.range'_succ, List.cons_append]
    have h2 := ih (b + 1)
    rw [Nat.add_right_comm] at h2
    rw [← Nat.add_assoc, h2]

theorem emitNewTypeVar_inv (b0 L0 : Nat) (st : EmitSt) (h : EmitInv b0 L0 st)
    (mk : Nat → List Nat) : EmitInv b0 L0 (emitNewTypeVar st mk).2 := by
  obtain ⟨h1, h2, h3, h4⟩ := h
  simp only [EmitInv, emitNewTypeVar, allocId, emitTypeVar]
  refine ⟨by omega, ?_, ?_, ?_⟩
  · rw [h2, h1]
    exact range'_snoc b0 st.newTCV
  · simp [h3]
  · rw [insertAt_length]
    omega

theorem emitDecor_inv (b0 L0 : Nat) (st : EmitSt) (h : EmitInv b0 L0 st)
    (ws : List Nat) : EmitInv b0 L0 (emitDecor st ws) := by
  obtain ⟨h1, h2, h3, h4⟩ := h
  simp only [EmitInv, emitDecor]
  refine ⟨h1, h2, h3, ?_⟩
  rw [insertAt_length]
  omega

theorem emitDecorBlock_inv (b0 L0 : Nat) (st : EmitSt) (h : EmitInv b0 L0 st)
    (instrs : List (List Nat)) : EmitInv b0 L0 (emitDecorBlock st instrs) := by
  obtain ⟨h1, h2, h3, h4⟩ := h
  simp only [EmitInv, emitDecorBlock]
  refine ⟨h1, h2, h3, ?_⟩
  rw [insertAt_length]
  omega

theorem foldPreserves {α : Type} (P : EmitSt → Prop) (f : EmitSt → α → EmitSt)
    (hf : ∀ st a, P st → P (f st a)) :
    ∀ (l : List α) (st : EmitSt), P st → P (l.foldl f st) := by
  intro l
  induction l with
  | nil => intro st h; exact h
  | cons a t ih =>
    intro st h
    exact ih (f st a) (hf st a h)

theorem emitSint32IfMissing_inv (b0 L0 : Nat) (st : EmitSt)
    (h : EmitInv b0 L0 st) : EmitInv b0 L0 (emitSint32IfMissing st) := by
  unfold emitSint32IfMissing
  split
  · exact emitNewTypeVar_inv b0 L0 st h
      (fun id => [makeSPIRVOp spvOpTypeInt 4, id, 32, 1])
  · exact h

theorem emitSint32PtrIfMissing_inv (b0 L0 : Nat) (st : EmitSt)
    (h : EmitInv b0 L0 st) : EmitInv b0 L0 (emitSint32PtrIfMissing st) := by
  unfold emitSint32PtrIfMissing
  split
  · exact emitNewTypeVar_inv b0 L0 st h
      (fun id => [makeSPIRVOp spvOpTypePointer 4, id, spvStorageClassInput,
        st.sint32ID])
  · exact h

theorem emitVertidxVar_inv (b0 L0 : Nat) (st : EmitSt)
    (h : EmitInv b0 L0 st) : EmitInv b0 L0 (emitVertidxVar st) := by
  unfold emitVertidxVar
  exact emitDecor_inv b0 L0 _
    (emitNewTypeVar_inv b0 L0 st h
      (fun id => [makeSPIRVOp spvOpVariable 4, st.sint32PtrInID, id,
        spvStorageClassInput])) _

theorem emitVertidx_inv (b0 L0 : Nat) (st : EmitSt)
    (h : EmitInv b0 L0 st) : EmitInv b0 L0 (emitVertidx st) := by
  unfold emitVertidx
  split
  · exact emitVertidxVar_inv b0 L0 _
      (emitSint32PtrIfMissing_inv b0 L0 _ (emitSint32IfMissing_inv b0 L0 st h))
  · exact h

theorem emitUint32_inv (b0 L0 : Nat) (st : EmitSt)
    (h : EmitInv b0 L0 st) : EmitInv b0 L0 (emitUint32 st) := by
  unfold emitUint32
  split
  · exact emitNewTypeVar_inv b0 L0 st h
      (fun id => [makeSPIRVOp spvOpTypeInt 4, id, 32, 0])
  · exact h

theorem emitConstantFor_inv (b0 L0 : Nat) (i : Nat) (st : EmitSt)
    (h : EmitInv b0 L0 st) : EmitInv b0 L0 (emitConstantFor i st) := by
  unfold emitConstantFor
  split
  · exact emitNewTypeVar_inv b0 L0 st h
      (fun id => [makeSPIRVOp spvOpConstant 4, st.uint32ID, id, i])
  · exact h

theorem emitConstants_inv (b0 L0 n : Nat) (st : EmitSt)
    (h : EmitInv b0 L0 st) : EmitInv b0 L0 (emitConstants n st) :=
  foldPreserves (EmitInv b0 L0) (fun st i => emitConstantFor i st)
    (fun st i hst => emitConstantFor_inv b0 L0 i st hst) (List.range n) st h

theorem EmitInv_congr (b0 L0 : Nat) (s t : EmitSt)
    (hi : t.idBound = s.idBound) (hn : t.newIds = s.newIds)
    (hc : t.newTCV = s.newTCV) (hs : t.spirv.length = s.spirv.length)
    (h : EmitInv b0 L0 s) : EmitInv b0 L0 t := by
  obtain ⟨h1, h2, h3, h4⟩ := h
  refine ⟨?_, ?_, ?_, ?_⟩
  · rw [hi, hc]; exact h1
  · rw [hn, hc]; exact h2
  · rw [hc, hn]; exact h3
  · rw [hs]; exact h4

theorem propagateUniformPtr_inv (b0 L0 : Nat) (oi : OutIds) (id : Nat)
    (st : EmitSt) (j : Nat) (h : EmitInv b0 L0 st) :
    EmitInv b0 L0 (propagateUniformPtr oi id st j) := by
  simp only [propagateUniformPtr]
  split
  · exact EmitInv_congr b0 L0 st _ rfl rfl rfl rfl h
  · exact h

theorem emitUniformPtrFor_inv (b0 L0 n i : Nat) (st : EmitSt)
    (h : EmitInv b0 L0 st) : EmitInv b0 L0 (emitUniformPtrFor n i st) := by
  unfold emitUniformPtrFor
  split
  · refine foldPreserves (EmitInv b0 L0) (propagateUniformPtr _ _)
      (fun st j hst => propagateUniformPtr_inv b0 L0 _ _ st j hst) _ _ ?_
    exact EmitInv_congr b0 L0
      (emitNewTypeVar st (fun id => [makeSPIRVOp spvOpTypePointer 4, id,
        spvStorageClassUniform, (st.outs.getD i defaultOutIds).basetypeID])).2
      _ rfl rfl rfl rfl
      (emitNewTypeVar_inv b0 L0 st h _)
  · exact h

theorem emitUniformPtrs_inv (b0 L0 n : Nat) (st : EmitSt)
    (h : EmitInv b0 L0 st) : EmitInv b0 L0 (emitUniformPtrs n st) :=
  foldPreserves (EmitInv b0 L0) (fun st i => emitUniformPtrFor n i st)
    (fun st i hst => emitUniformPtrFor_inv b0 L0 n i st hst) (List.range n) st h

theorem getD_set_self (l : List Nat) (i v : Nat) (h : i < l.length) :
    (l.set i v).getD i 0 = v := by
  simp [List.getD_eq_getElem?_getD, List.getElem?_set_self, h]

theorem memberDecorateStep_fold_len (vid : Nat) :
    ∀ (l : List SigElem) (acc : List (List Nat) × Nat × Nat),
      ((l.foldl (memberDecorateStep vid) acc).1).length
        = acc.1.length + l.length := by
  intro l
  induction l with
  | nil => intro acc; simp
  | cons e t ih =>
    intro acc
    rw [List.foldl_cons, ih]
    simp [memberDecorateStep]
    omega

theorem memberDecorates_length (refl : List SigElem) (vid : Nat) :
    (memberDecorates refl vid).1.length = refl.length := by
  have := memberDecorateStep_fold_len vid refl ([], 0, 0)
  simpa [memberDecorates] using this

theorem emitStructDecls_inv (b0 L0 : Nat) (refl : List SigElem) (st : EmitSt)
    (h : EmitInv b0 L0 st) : EmitInv b0 L0 (emitStructDecls refl st).1 := by
  simp only [emitStructDecls]
  exact emitNewTypeVar_inv b0 L0 _
    (emitNewTypeVar_inv b0 L0 _
      (emitNewTypeVar_inv b0 L0 _
        (emitNewTypeVar_inv b0 L0 _
          (emitNewTypeVar_inv b0 L0 st h _) _) _) _) _

theorem emitFinalState_inv (b0 L0 : Nat) (refl : List SigElem) (st : EmitSt)
    (h : EmitInv b0 L0 st) : EmitInv b0 L0 (emitFinalState refl st) := by
  unfold emitFinalState
  exact emitDecorBlock_inv b0 L0 _ (emitStructDecls_inv b0 L0 refl st h) _

theorem emitStructAndFinish_spec (refl : List SigElem) (b0 L0 idB0 : Nat)
    (st : EmitSt) (h : EmitInv b0 L0 st) :
    (emitStructAndFinish refl idB0 st).idBound0 = idB0 ∧
    (emitStructAndFinish refl idB0 st).idBound
      = b0 + (emitStructAndFinish refl idB0 st).newTCV ∧
    (emitStructAndFinish refl idB0 st).newIds
      = List.range' b0 (emitStructAndFinish refl idB0 st).newTCV ∧
    (emitStructAndFinish refl idB0 st).newTCV
      = (emitStructAndFinish refl idB0 st).newIds.length ∧
    (emitStructAndFinish refl idB0 st).vertStructMembers = refl.length ∧
    (emitStructAndFinish refl idB0 st).memberDecorateCount = refl.length ∧
    (3 < L0 →
      (emitStructAndFinish refl idB0 st).spirv.getD 3 0
        = (emitStructAndFinish refl idB0 st).idBound) := by
  obtain ⟨f1, f2, f3, f4⟩ := emitFinalState_inv b0 L0 refl st h
  refine ⟨rfl, f1, f2, f3, ?_, ?_, ?_⟩
  · simp [emitStructAndFinish]
  · exact memberDecorates_length refl (emitStructDecls refl st).2.1
  · intro h3
    exact getD_set_self (emitFinalState refl st).spirv 3
      (emitFinalState refl st).idBound (by omega)

theorem emitSint32IfMissing_aok (st : EmitSt) :
    (emitSint32IfMissing st).assertsOK = st.assertsOK := by
  unfold emitSint32IfMissing
  split <;> rfl

theorem emitSint32PtrIfMissing_aok (st : EmitSt) :
    (emitSint32PtrIfMissing st).assertsOK = st.assertsOK := by
  unfold emitSint32PtrIfMissing
  split <;> rfl

theorem emitVertidx_aok (st : EmitSt) :
    (emitVertidx st).assertsOK = st.assertsOK := by
  unfold emitVertidx
  split
  · show (emitVertidxVar _).assertsOK = st.assertsOK
    rw [show ∀ t : EmitSt, (emitVertidxVar t).assertsOK = t.assertsOK
          from fun t => rfl,
        emitSint32PtrIfMissing_aok, emitSint32IfMissing_aok]
  · rfl

theorem emitUint32_aok (st : EmitSt) :
    (emitUint32 st).assertsOK = st.assertsOK := by
  unfold emitUint32
  split <;> rfl

theorem emitConstantFor_aok (i : Nat) (st : EmitSt) :
    (emitConstantFor i st).assertsOK = st.assertsOK := by
  unfold emitConstantFor
  split <;> rfl

theorem emitConstants_aok (n : Nat) (st : EmitSt) :
    (emitConstants n st).assertsOK = st.assertsOK :=
  foldPreserves (fun t => t.assertsOK = st.assertsOK)
    (fun t i => emitConstantFor i t)
    (fun t i ht => (emitConstantFor_aok i t).trans ht) (List.range n) st rfl

theorem propagateUniformPtr_false (oi : OutIds) (id : Nat) (st : EmitSt)
    (j : Nat) (h : st.assertsOK = false) :
    (propagateUniformPtr oi id st j).assertsOK = false := by
  simp only [propagateUniformPtr]
  split
  · simp [h]
  · exact h

theorem emitUniformPtrFor_false (n i : Nat) (st : EmitSt)
    (h : st.assertsOK = false) :
    (emitUniformPtrFor n i st).assertsOK = false := by
  unfold emitUniformPtrFor
  split
  · exact foldPreserves (fun t => t.assertsOK = false) (propagateUniformPtr _ _)
      (fun t j ht => propagateUniformPtr_false _ _ t j ht) _ _ h
  · exact h

theorem emitUniformPtrs_false (n : Nat) (st : EmitSt)
    (h : st.assertsOK = false) :
    (emitUniformPtrs n st).assertsOK = false :=
  foldPreserves (fun t => t.assertsOK = false)
    (fun t i => emitUniformPtrFor n i t)
    (fun t i ht => emitUniformPtrFor_false n i t ht) (List.range n) st h

/-- C10: `PatchFixedColShader` modifies the embedded fixed-colour shader
blob only at the literal operand word (instruction offset + 3) of
`OpConstant` instructions; a word equal to one of the sentinels 1.1f, 2.2f,
3.3f, 4.4f becomes `col[0..3]` respectively (see `patchWord`), any other
word of the blob is unchanged, the blob's length is unchanged, and an
`OpConstant` matching no sentinel only counts a logged error (`errs`)
without altering the blob or aborting (the function still returns `some`).
The hypothesis `wfScan` states the blob's scanned instruction stream is
well formed (word counts ≥ 1, and ≥ 4 for `OpConstant`), which holds for
any valid SPIR-V module and in particular the embedded shader. -/
theorem patchFixedColShader_patches_only_sentinels (col : Col4) (spirv : List Nat)
    (hwf : wfScan spirv.length 5 spirv = true) :
    ∃ sites out errs,
      constSites spirv.length 5 spirv = some sites ∧
      patchFixedColShader col spirv = some (out, errs) ∧
      out.length = spirv.length ∧
      (∀ j, out.getD j 0 =
        if j ∈ sites.map (· + 3) then patchWord col (spirv.getD j 0)
        else spirv.getD j 0) ∧
      errs = (sites.filter (fun s => !isSentinel (spirv.getD (s + 3) 0))).length := by
  obtain ⟨sites, out, h1, h2, h3, h4⟩ :=
    patchLoop_spec col spirv.length 5 spirv 0 hwf
  refine ⟨sites, out,
    (sites.filter (fun s => !isSentinel (spirv.getD (s + 3) 0))).length,
    h1, ?_, h3, h4, rfl⟩
  rw [patchFixedColShader, h2, Nat.zero_add]

/-- C10 witness: the patching theorem applied to a concrete 15-word blob
holding one `OpConstant` with the 2.2f sentinel (patched to `col[1] = 11`),
one unrelated instruction, and one `OpConstant` with a non-sentinel literal
(left unchanged, error counted). -/
theorem patchFixedColShader_patches_only_sentinels_witness :
    ∃ sites out errs,
      constSites 15 5
          [119734787, 65536, 0, 20, 0, 262187, 1, 2, 0x400CCCCD,
           131126, 7, 262187, 1, 3, 5] = some sites ∧
      patchFixedColShader ⟨10, 11, 12, 13⟩
          [119734787, 65536, 0, 20, 0, 262187, 1, 2, 0x400CCCCD,
           131126, 7, 262187, 1, 3, 5] = some (out, errs) ∧
      out.length = 15 ∧
      (∀ j, out.getD j 0 =
        if j ∈ sites.map (· + 3) then
          patchWord ⟨10, 11, 12, 13⟩
            ([119734787, 65536, 0, 20, 0, 262187, 1, 2, 0x400CCCCD,
              131126, 7, 262187, 1, 3, 5].getD j 0)
        else [119734787, 65536, 0, 20, 0, 262187, 1, 2, 0x400CCCCD,
              131126, 7, 262187, 1, 3, 5].getD j 0) ∧
      errs = (sites.filter (fun s =>
        !isSentinel ([119734787, 65536, 0, 20, 0, 262187, 1, 2, 0x400CCCCD,
                      131126, 7, 262187, 1, 3, 5].getD (s + 3) 0))).length :=
  patchFixedColShader_patches_only_sentinels ⟨10, 11, 12, 13⟩
    [119734787, 65536, 0, 20, 0, 262187, 1, 2, 0x400CCCCD,
     131126, 7, 262187, 1, 3, 5] (by decide)

/-- C3: the cache key of `CacheMeshDisplayPipelines` is NOT injective on
valid signatures: two signatures that are identical except for the primary
vertex stride (4 versus 516, both passing the `stride <= 0xffff` assert)
produce the same 64-bit key, because the 16-bit stride field is shifted to
bit 23 in 32-bit arithmetic (`(uint32_t)primary.stride & 0xffff) << bit`)
and the bits above bit 31 are discarded: strides differing by a multiple of
512 always collide. -/
theorem cacheMeshPipelinesKey_stride_collision :
    cacheMeshPipelinesKey 4 3 43 0 4 0 false =
      cacheMeshPipelinesKey 4 3 43 0 516 0 false ∧
    (4 : Nat) ≠ 516 := by decide

theorem gpuBuffer_ring_allocator_counterexample :
    0 < (GPUBuffer.create (2 ^ 32 + 3) 1 3).align ∧
    (∀ s ∈ [2 ^ 32 + 2, 1],
        (if s > 0 then s else (GPUBuffer.create (2 ^ 32 + 3) 1 3).sz)
          ≤ (GPUBuffer.create (2 ^ 32 + 3) 1 3).totalsize) ∧
    ¬ (∀ p ∈ ((GPUBuffer.create (2 ^ 32 + 3) 1 3).mapRun [2 ^ 32 + 2, 1]).1,
        p.1 % (GPUBuffer.create (2 ^ 32 + 3) 1 3).align = 0) := by
  refine ⟨by decide, by decide, ?_⟩
  intro h
  have h2 := h ((2 ^ 32 + 2) % 2 ^ 32, 1) (by decide)
  revert h2
  decide

theorem emitNewTypeVar_aok (st : EmitSt) (mk : Nat → List Nat) :
    (emitNewTypeVar st mk).2.assertsOK = st.assertsOK := rfl

theorem emitStructDecls_aok (refl : List SigElem) (st : EmitSt) :
    (emitStructDecls refl st).1.assertsOK = st.assertsOK := by
  simp only [emitStructDecls]
  rw [emitNewTypeVar_aok, emitNewTypeVar_aok, emitNewTypeVar_aok,
    emitNewTypeVar_aok, emitNewTypeVar_aok]

theorem emitDecorBlock_aok (st : EmitSt) (instrs : List (List Nat)) :
    (emitDecorBlock st instrs).assertsOK = st.assertsOK := rfl

theorem emitFinalState_aok (refl : List SigElem) (st : EmitSt) :
    (emitFinalState refl st).assertsOK = st.assertsOK := by
  simp only [emitFinalState]
  rw [emitDecorBlock_aok, emitStructDecls_aok]

theorem emitStructAndFinish_aok (refl : List SigElem) (idB0 : Nat)
    (st : EmitSt) :
    (emitStructAndFinish refl idB0 st).assertsOK = st.assertsOK := by
  show (emitFinalState refl st).assertsOK = st.assertsOK
  exact emitFinalState_aok refl st

theorem emitStructAndFinish_members (refl : List SigElem) (idB0 : Nat)
    (st : EmitSt) :
    (emitStructAndFinish refl idB0 st).vertStructMembers = refl.length ∧
    (emitStructAndFinish refl idB0 st).memberDecorateCount = refl.length := by
  constructor
  · simp [emitStructAndFinish]
  · exact memberDecorates_length refl (emitStructDecls refl st).2.1

theorem addOutputDumping_eq (refl : List SigElem) (mod : List Nat)
    (r : DumpResult) (h : addOutputDumping refl mod = some r) :
    ∃ s, scanLoop refl mod.length 5 mod initScanState = some s ∧
      r = emitStructAndFinish refl (mod.getD 3 0)
            (emitUniformPtrs refl.length (emitConstants refl.length
              (emitUint32 (emitVertidx (initEmitSt refl mod
                (fixupOuts refl s).1 (fixupOuts refl s).2))))) := by
  rcases hscan : scanLoop refl mod.length 5 mod initScanState with _ | s
  · exfalso
    unfold addOutputDumping at h
    rw [hscan] at h
    exact Option.noConfusion h
  · unfold addOutputDumping at h
    rw [hscan] at h
    refine ⟨s, rfl, ?_⟩
    have h2 : some (emitStructAndFinish refl (mod.getD 3 0)
        (emitUniformPtrs refl.length (emitConstants refl.length
          (emitUint32 (emitVertidx (initEmitSt refl mod
            (fixupOuts refl s).1 (fixupOuts refl s).2)))))) = some r := h
    exact (Option.some_inj.mp h2).symm

theorem initEmitSt_inv (refl : List SigElem) (mod : List Nat) (s : ScanState)
    (b : Bool) :
    EmitInv (mod.getD 3 0) mod.length (initEmitSt refl mod s b) :=
  ⟨rfl, rfl, rfl, le_refl _⟩

/-- C4: after `AddOutputDumping` runs, the id bound written back into header
word 3 equals the module's original id bound plus the number of newly
inserted type/constant/variable instructions (`newTCV`; the inserted
decoration instructions allocate no ids), each of those instructions got
its own fresh id (`newIds` is the duplicate-free range starting at the old
bound), and the header value is the bound after all allocations. -/
theorem addOutputDumping_id_accounting (refl : List SigElem) (mod : List Nat)
    (r : DumpResult) (h : addOutputDumping refl mod = some r)
    (hlen : 3 < mod.length) :
    r.idBound0 = mod.getD 3 0 ∧
    r.idBound = r.idBound0 + r.newTCV ∧
    r.newIds = List.range' r.idBound0 r.newTCV ∧
    r.newIds.Nodup ∧
    r.newTCV = r.newIds.length ∧
    r.spirv.getD 3 0 = r.idBound := by
  obtain ⟨s, hscan, hr⟩ := addOutputDumping_eq refl mod r h
  subst hr
  have hinv := emitUniformPtrs_inv (mod.getD 3 0) mod.length refl.length _
    (emitConstants_inv (mod.getD 3 0) mod.length refl.length _
      (emitUint32_inv (mod.getD 3 0) mod.length _
        (emitVertidx_inv (mod.getD 3 0) mod.length _
          (initEmitSt_inv refl mod (fixupOuts refl s).1 (fixupOuts refl s).2))))
  obtain ⟨g1, g2, g3, g4, g5, g6, g7⟩ :=
    emitStructAndFinish_spec refl (mod.getD 3 0) mod.length (mod.getD 3 0)
      _ hinv
  refine ⟨g1, ?_, ?_, ?_, g4, g7 hlen⟩
  · rw [g1]
    exact g2
  · rw [g1]
    exact g3
  · rw [g3]
    exact List.nodup_range' _ _

theorem addOutputDumping_id_accounting_witness :
    addOutputDumping [] [119734787, 65536, 0, 20, 0, 196630, 6, 32, 327734]
      = some
        { spirv := [119734787, 65536, 0, 29, 0, 262215, 22, 11, 5, 327752,
            26, 0, 35, 0, 262215, 25, 6, 0, 196679, 26, 3, 262215, 28, 34,
            1, 262215, 28, 33, 0, 196630, 6, 32, 262165, 20, 32, 1, 262176,
            21, 1, 20, 262203, 21, 22, 1, 262165, 23, 32, 0, 131102, 24,
            196637, 25, 24, 196638, 26, 25, 262176, 27, 2, 26, 262203, 27,
            28, 2, 327734]
          idBound0 := 20
          idBound := 29
          typeVarOffset := 64
          decorateOffset := 29
          newTCV := 9
          newDecor := 6
          newIds := [20, 21, 22, 23, 24, 25, 26, 27, 28]
          assertsOK := true
          vertStructMembers := 0
          memberDecorateCount := 0 } ∧
    3 < [119734787, 65536, 0, 20, 0, 196630, 6, 32, 327734].length ∧
    ((20 : Nat) = [119734787, 65536, 0, 20, 0, 196630, 6, 32,
        327734].getD 3 0 ∧
      (29 : Nat) = 20 + 9 ∧
      [20, 21, 22, 23, 24, 25, 26, 27, 28] = List.range' 20 9 ∧
      [20, 21, 22, 23, 24, 25, 26, 27, 28].Nodup ∧
      (9 : Nat) = [20, 21, 22, 23, 24, 25, 26, 27, 28].length ∧
      [119734787, 65536, 0, 29, 0, 262215, 22, 11, 5, 327752, 26, 0, 35, 0,
        262215, 25, 6, 0, 196679, 26, 3, 262215, 28, 34, 1, 262215, 28, 33,
        0, 196630, 6, 32, 262165, 20, 32, 1, 262176, 21, 1, 20, 262203, 21,
        22, 1, 262165, 23, 32, 0, 131102, 24, 196637, 25, 24, 196638, 26,
        25, 262176, 27, 2, 26, 262203, 27, 28, 2, 327734].getD 3 0 = 29) :=
  ⟨rfl, by decide,
    addOutputDumping_id_accounting []
      [119734787, 65536, 0, 20, 0, 196630, 6, 32, 327734] _ rfl (by decide)⟩

/-- C4 counterexample to the claimed accounting: on a module with original
id bound 20 the inserted instructions number 9 types/constants/variables
plus 6 decorations, yet the id bound written into header word 3 is 29 —
not `4 + (9 + 6) = 19`.  The written bound is `original + newTCV`, not
`4 +` the number of newly inserted instructions. -/
theorem addOutputDumping_idbound_counterexample :
    (addOutputDumping []
        [119734787, 65536, 0, 20, 0, 196630, 6, 32, 327734]).map
      (fun r => (r.spirv.getD 3 0, r.newTCV, r.newDecor))
      = some (29, 9, 6) ∧
    (29 : Nat) ≠ 4 + (9 + 6) := ⟨rfl, by decide⟩

/-- C9: `AddOutputDumping` assumes at most 100 distinct outputs: when
`numOutputs < 100` every access to the fixed `outs[100]` array uses an
index below 100 and no output is truncated (the emitted per-vertex struct
has one member and one offset decoration per output), while an input with
`numOutputs >= 100` trips the `RDCASSERT(numOutputs < 100)` (the collected
assertion flag is false) rather than truncating silently. -/
theorem addOutputDumping_output_limit (refl : List SigElem)
    (mod : List Nat) :
    (refl.length < 100 →
      (∀ i ∈ outsAccessIndices refl, i < 100) ∧
      ∀ r, addOutputDumping refl mod = some r →
        r.vertStructMembers = refl.length ∧
        r.memberDecorateCount = refl.length) ∧
    (100 ≤ refl.length →
      ∀ r, addOutputDumping refl mod = some r → r.assertsOK = false) := by
  constructor
  · intro hsmall
    constructor
    · intro i hi
      simp only [outsAccessIndices, List.mem_range] at hi
      omega
    · intro r h
      obtain ⟨s, hscan, hr⟩ := addOutputDumping_eq refl mod r h
      subst hr
      exact emitStructAndFinish_members refl (mod.getD 3 0) _
  · intro hbig r h
    obtain ⟨s, hscan, hr⟩ := addOutputDumping_eq refl mod r h
    subst hr
    rw [emitStructAndFinish_aok]
    apply emitUniformPtrs_false
    rw [emitConstants_aok, emitUint32_aok, emitVertidx_aok]
    have hge : ¬ refl.length < 100 := Nat.not_lt.mpr hbig
    simp [initEmitSt, hge]

theorem addOutputDumping_output_limit_witness :
    ((0 : Nat) < 100) ∧
    ((addOutputDumping [⟨CompType.float, 1⟩]
        [119734787, 65536, 0, 20, 0, 196630, 6, 32, 327734]).map
      (fun r => (r.vertStructMembers, r.memberDecorateCount))
      = some (1, 1)) ∧
    ((addOutputDumping (List.replicate 100 ⟨CompType.float, 1⟩)
        [119734787, 65536, 0, 20, 0, 196630, 6, 32, 327734]).map
      DumpResult.assertsOK = some false) := by
  refine ⟨?_, ?_, ?_⟩
  · exact ((addOutputDumping_output_limit [⟨CompType.float, 1⟩]
      [119734787, 65536, 0, 20, 0, 196630, 6, 32, 327734]).1
      (by decide)).1 0 (by decide)
  · have hS : (addOutputDumping [⟨CompType.float, 1⟩]
        [119734787, 65536, 0, 20, 0, 196630, 6, 32, 327734]).isSome
        = true := rfl
    rcases hE : addOutputDumping [⟨CompType.float, 1⟩]
        [119734787, 65536, 0, 20, 0, 196630, 6, 32, 327734] with _ | r
    · rw [hE] at hS
      simp at hS
    · have h := ((addOutputDumping_output_limit [⟨CompType.float, 1⟩]
        [119734787, 65536, 0, 20, 0, 196630, 6, 32, 327734]).1
        (by decide)).2 r hE
      show some (r.vertStructMembers, r.memberDecorateCount) = some (1, 1)
      rw [h.1, h.2]
      rfl
  · have hS : (addOutputDumping (List.replicate 100 ⟨CompType.float, 1⟩)
        [119734787, 65536, 0, 20, 0, 196630, 6, 32, 327734]).isSome
        = true := rfl
    rcases hE : addOutputDumping (List.replicate 100 ⟨CompType.float, 1⟩)
        [119734787, 65536, 0, 20, 0, 196630, 6, 32, 327734] with _ | r
    · rw [hE] at hS
      simp at hS
    · have h := (addOutputDumping_output_limit
        (List.replicate 100 ⟨CompType.float, 1⟩)
        [119734787, 65536, 0, 20, 0, 196630, 6, 32, 327734]).2
        (by simp) r hE
      show some r.assertsOK = some false
      rw [h]

end RenderDoc
